import Mathlib

/-!
Verification development for the shipping-analytics dashboard backend.

The definitions below are a shallow embedding of the Python sources:
  * `backend/data_preprocessing.py` (pandas ingestion-time normalization), and
  * `backend/analytics.py` (Polars compute-time normalization, filtering and
    aggregation, and the orchestrator loop).

Machine floats are modelled as exact rationals (`ℚ`); of the float values
appearing in the claims none depends on rounding.  Timestamps are modelled as
calendar records with exact epoch arithmetic.  Python `None`, pandas `NaN`/`NaT`
and Polars `null` are all modelled by the single null scalar `Val.null`.
-/

namespace Dashboard

/-- Calendar timestamp (year, month, day, hour, minute, second), standing for
the Python `datetime` / Polars `Datetime` values that flow through the
pipeline. -/
structure DT where
  year : Int
  month : Nat
  day : Nat
  hour : Nat
  minute : Nat
  second : Nat
deriving DecidableEq, Repr

/-- Scalar cell value of a table column.  `null` stands for Python `None`,
pandas `NaN`/`NaT` and Polars `null` alike. -/
inductive Val where
  | null : Val
  | str (s : String) : Val
  | num (q : ℚ) : Val
  | bool (b : Bool) : Val
  | dt (t : DT) : Val
deriving DecidableEq, Repr

/-- Leap-year test, as written in `get_order_week`
(`(year % 4 == 0 and year % 100 != 0) or (year % 400 == 0)`). -/
def isLeapYear (y : Int) : Bool :=
  (y % 4 == 0 && y % 100 != 0) || y % 400 == 0

/-- Number of days in a civil month (standard civil calendar; coincides with
the inline last-day computation of `get_order_week`). -/
def lastDayOfMonth (y : Int) (m : Nat) : Nat :=
  if m = 2 then (if isLeapYear y then 29 else 28)
  else if m = 4 ∨ m = 6 ∨ m = 9 ∨ m = 11 then 30
  else 31

/-- Days elapsed since 1970-01-01 for a civil date (days-from-civil
algorithm with truncating integer division, as in the reference C++/Python
implementations underlying the datetime libraries). -/
def civilToDays (y : Int) (m d : Nat) : Int :=
  let yy : Int := if m ≤ 2 then y - 1 else y
  let era : Int := (if 0 ≤ yy then yy else yy - 399) / 400
  let yoe : Int := yy - era * 400
  let mp : Int := ((m : Int) + 9) % 12
  let doy : Int := (153 * mp + 2) / 5 + (d : Int) - 1
  let doe : Int := yoe * 365 + yoe / 4 - yoe / 100 + doy
  era * 146097 + doe - 719468

/-- Seconds elapsed since the Unix epoch for a timestamp; datetime
subtraction (`(end - start).total_seconds()`) is exactly the difference of
these values. -/
def epochSecs (t : DT) : Int :=
  civilToDays t.year t.month t.day * 86400
    + (t.hour : Int) * 3600 + (t.minute : Int) * 60 + (t.second : Int)

/-- ISO weekday (1 = Monday .. 7 = Sunday) of an epoch-day count
(1970-01-01 was a Thursday). -/
def isoWeekdayOfDays (days : Int) : Int :=
  (days % 7 + 10) % 7 + 1

/-- Days before the given month within its year. -/
def daysBeforeMonth (y : Int) (m : Nat) : Nat :=
  (List.range (m - 1)).foldl (fun a k => a + lastDayOfMonth y (k + 1)) 0

/-- Number of ISO calendar weeks in a year (53 iff Jan 1 is a Thursday, or a
Wednesday in a leap year). -/
def isoWeeksInYear (y : Int) : Int :=
  let jan1wd := isoWeekdayOfDays (civilToDays y 1 1)
  if jan1wd == 4 || (isLeapYear y && jan1wd == 3) then 53 else 52

/-- ISO 8601 week number of a date, as returned by the Polars
`Expr.dt.week` accessor used for `_order_week` in `normalize_dataframe_pl`. -/
def isoWeek (t : DT) : Int :=
  let wd := isoWeekdayOfDays (civilToDays t.year t.month t.day)
  let doy : Int := (daysBeforeMonth t.year t.month : Int) + (t.day : Int)
  let w := (doy - wd + 10) / 7
  if w < 1 then isoWeeksInYear (t.year - 1)
  else if isoWeeksInYear t.year < w then 1 else w

/-- ASCII uppercase of one character (the data flowing through the pipeline
is ASCII; Python `str.upper` and Polars `to_uppercase` agree with this
there). -/
def upChar (c : Char) : Char :=
  if 'a' ≤ c ∧ c ≤ 'z' then Char.ofNat (c.toNat - 32) else c

/-- ASCII lowercase of one character. -/
def loChar (c : Char) : Char :=
  if 'A' ≤ c ∧ c ≤ 'Z' then Char.ofNat (c.toNat + 32) else c

/-- Uppercase a string. -/
def sUpper (s : String) : String := ⟨s.data.map upChar⟩

/-- Lowercase a string. -/
def sLower (s : String) : String := ⟨s.data.map loChar⟩

/-- Whitespace in the sense of the Python regex class `\s` and `str.strip`. -/
def isSpaceChar (c : Char) : Bool :=
  c == ' ' || c == '\t' || c == '\n' || c == '\r' || c == '\x0b' || c == '\x0c'

/-- Python `str.strip()` / Polars `strip_chars()`: drop whitespace from both
ends. -/
def sTrim (s : String) : String :=
  ⟨((s.data.dropWhile isSpaceChar).reverse.dropWhile isSpaceChar).reverse⟩

/-- Substring containment of `pat` in `hay`, with Python `in` semantics (an
empty pattern is contained in everything). -/
def listContainsSub (hay pat : List Char) : Bool :=
  (List.range (hay.length + 1)).any fun i => pat.isPrefixOf (hay.drop i)

/-- `strContainsSub hay pat` is Python `pat in hay` for strings. -/
def strContainsSub (hay pat : String) : Bool :=
  listContainsSub hay.data pat.data

/-- `a or b` on scalar values under Python truthiness. -/
def pyTruthy : Val → Bool
  | .null => false
  | .str s => s ≠ ""
  | .num q => q ≠ 0
  | .bool b => b
  | .dt _ => true

/-- Pick the first Python-truthy value (`a or b`). -/
def pyOrV (a b : Val) : Val := if pyTruthy a then a else b

/-- Left-pad a numeral to two digits (`str(n).zfill(2)` for the values in
play). -/
def z2 (n : Nat) : String :=
  if n < 10 then "0" ++ toString n else toString n

/-- `strftime('%Y-%m-%d')` of a timestamp. -/
def fmtISODate (t : DT) : String :=
  toString t.year ++ "-" ++ z2 t.month ++ "-" ++ z2 t.day

/-- `str(datetime)` rendering, `YYYY-MM-DD HH:MM:SS` (also the Utf8 cast of a
Polars datetime). -/
def fmtDT (t : DT) : String :=
  fmtISODate t ++ " " ++ z2 t.hour ++ ":" ++ z2 t.minute ++ ":" ++ z2 t.second

/-- Python `str(x)` on a scalar cell.  (`str(None) = "None"`; numbers render
via their numeral, a corner no claim exercises.) -/
def pyStr : Val → String
  | .null => "None"
  | .str s => s
  | .num q => toString q
  | .bool b => if b then "True" else "False"
  | .dt t => fmtDT t

/-- A materialized table row: association list from column name to cell, with
first-occurrence lookup (pandas `Series.get`, returning `None` when the key
is absent). -/
abbrev Row := List (String × Val)

/-- `row.get(k)` with `None` (here `Val.null`) default. -/
def rowGet : Row → String → Val
  | [], _ => .null
  | (k, v) :: r, s => if k = s then v else rowGet r s

/-- Does the row have a binding for the key? -/
def rowHas (r : Row) (k : String) : Bool :=
  r.any (fun kv => kv.1 = k)

/-- Set (or append) one cell of a row, replacing the first binding of the
key if present. -/
def rowSet : Row → String → Val → Row
  | [], k, v => [(k, v)]
  | (k0, v0) :: r, k, v =>
      if k0 = k then (k, v) :: r else (k0, v0) :: rowSet r k v

/-- Upsert a batch of cells, left to right (row-wise semantics of a Polars
`with_columns` batch). -/
def writeCells (r : Row) (kvs : List (String × Val)) : Row :=
  kvs.foldl (fun acc kv => rowSet acc kv.1 kv.2) r

/-- Add the column names of `ns` (pairwise distinct, as in every
`with_columns` batch) that are not yet in `cols`, in order: the schema
effect of `with_columns` — existing columns are replaced in place, new ones
are appended. -/
def addCols (cols ns : List String) : List String :=
  cols ++ ns.filter (fun n => ¬ n ∈ cols)

/-! ### `backend/data_preprocessing.py` — pandas ingestion-time normalization -/

/-- Is the character an ASCII uppercase letter (regex class `[A-Z]`)? -/
def isUpperAZ (c : Char) : Bool := 'A' ≤ c && c ≤ 'Z'

/-- Is the character an ASCII digit? -/
def isDigitChar (c : Char) : Bool := '0' ≤ c && c ≤ '9'

/-- `re.sub(r'(?<!^)(?=[A-Z])', '_', name)`: insert `_` before every
uppercase letter that is not at the start of the string. -/
def insertUnderscoreBeforeUpper : List Char → List Char
  | [] => []
  | c :: cs => c :: (cs.map (fun d => if isUpperAZ d then ['_', d] else [d])).flatten

/-- `re.sub(r'\s+', '_', ...)`: replace every maximal whitespace run by one
underscore.  The flag records whether the previous character was part of a
run already replaced. -/
def squashWs : Bool → List Char → List Char
  | _, [] => []
  | prev, c :: cs =>
      if isSpaceChar c then
        if prev then squashWs true cs else '_' :: squashWs true cs
      else c :: squashWs false cs

/-- Character kept by `re.sub(r'[^a-z0-9_]', '', ...)`. -/
def isSnakeChar (c : Char) : Bool :=
  ('a' ≤ c && c ≤ 'z') || isDigitChar c || c == '_'

/-- `to_snake_case` from `normalize_keys`: strip, insert `_` before interior
capitals, lowercase, squash whitespace runs to `_`, drop the remaining
non-`[a-z0-9_]` characters. -/
def to_snake_case (s : String) : String :=
  let cs := (sTrim s).data
  let cs := insertUnderscoreBeforeUpper cs
  let cs := cs.map loChar
  let cs := squashWs false cs
  ⟨cs.filter isSnakeChar⟩

/-- `standardize_missing_values`: empty/whitespace-only strings and the
case-insensitive markers `none`, `n/a`, `na`, `null` become true null. -/
def standardize_missing_values (v : Val) : Val :=
  match v with
  | .null => .null
  | .str s =>
      if sLower (sTrim s) ∈ (["", "none", "n/a", "na", "null"] : List String)
      then .null else .str s
  | w => w

/-- Split a character list on a separator character (Python `str.split(sep)`:
`""` splits to one empty group). -/
def splitOnChar (sep : Char) (cs : List Char) : List (List Char) :=
  cs.foldr
    (fun c acc =>
      if c == sep then [] :: acc
      else match acc with
        | [] => [[c]]
        | g :: gs => (c :: g) :: gs)
    [[]]

/-- Numeric value of a list of ASCII digits. -/
def digitsToNat (cs : List Char) : Nat :=
  cs.foldl (fun a c => a * 10 + (c.toNat - 48)) 0

/-- All characters are ASCII digits (and the group is non-empty unless
stated otherwise by the caller). -/
def allDigits (cs : List Char) : Bool := cs.all isDigitChar

/-- Can `datetime(year, month, day)` be constructed?  (The Python constructor
raises `ValueError` outside these bounds.) -/
def validYMD (y : Int) (m d : Nat) : Bool :=
  1 ≤ m && m ≤ 12 && 1 ≤ d && d ≤ lastDayOfMonth y m

/-- The `MM/DD/YY` / `MM/DD/YYYY` branch of `parse_date`: regex
`^(\d{1,2})/(\d{1,2})/(\d{2,4})$`, two-digit years mapped to 2000s when < 50
and 1900s otherwise, and `datetime` construction validity. -/
def parseMMDDYY (s : String) : Option DT :=
  match splitOnChar '/' s.data with
  | [ms, ds, ys] =>
      if allDigits ms && allDigits ds && allDigits ys
          && 1 ≤ ms.length && ms.length ≤ 2
          && 1 ≤ ds.length && ds.length ≤ 2
          && 2 ≤ ys.length && ys.length ≤ 4 then
        let month := digitsToNat ms
        let day := digitsToNat ds
        let year0 := digitsToNat ys
        let year : Int := if year0 < 100
          then (if year0 < 50 then 2000 + year0 else 1900 + year0)
          else year0
        if validYMD year month day then some ⟨year, month, day, 0, 0, 0⟩ else none
      else none
  | _ => none

/-- ISO `YYYY-MM-DD` date parsing. -/
def parseISODate (s : String) : Option DT :=
  match splitOnChar '-' s.data with
  | [ys, ms, ds] =>
      if allDigits ys && allDigits ms && allDigits ds
          && ys.length = 4 && 1 ≤ ms.length && ms.length ≤ 2
          && 1 ≤ ds.length && ds.length ≤ 2 then
        let year : Int := digitsToNat ys
        let month := digitsToNat ms
        let day := digitsToNat ds
        if validYMD year month day then some ⟨year, month, day, 0, 0, 0⟩ else none
      else none
  | _ => none

/-- `HH:MM:SS` time-of-day parsing. -/
def parseHMS (s : String) : Option (Nat × Nat × Nat) :=
  match splitOnChar ':' s.data with
  | [hs, ms, ss] =>
      if allDigits hs && allDigits ms && allDigits ss
          && hs.length ≤ 2 && ms.length = 2 && ss.length = 2 then
        let h := digitsToNat hs
        let m := digitsToNat ms
        let sec := digitsToNat ss
        if h ≤ 23 && m ≤ 59 && sec ≤ 59 then some (h, m, sec) else none
      else none
  | _ => none

/-- Permissive datetime parsing (`pd.to_datetime(..., errors='coerce')` and
Polars `str.to_datetime(strict=False)`), modelled on the ISO
`YYYY-MM-DD [HH:MM:SS]` forms that the claims and the repository data
exercise; anything else coerces to null. -/
def parseISODT (s : String) : Option DT :=
  match splitOnChar ' ' s.data with
  | [d] => parseISODate ⟨d⟩
  | [d, t] =>
      match parseISODate ⟨d⟩, parseHMS ⟨t⟩ with
      | some dd, some (h, mi, sec) => some ⟨dd.year, dd.month, dd.day, h, mi, sec⟩
      | _, _ => none
  | _ => none

/-- `parse_date`: null markers → `None`; then the `MM/DD/YY(YY)` regex
branch; then the permissive parser. -/
def parse_date (v : Val) : Option DT :=
  match v with
  | .null => none
  | .dt t => some t
  | w =>
      let sv := standardize_missing_values w
      if ¬ pyTruthy sv then none
      else
        let ds := sTrim (pyStr sv)
        if sUpper ds = "N/A" ∨ ds = "'" then none
        else match parseMMDDYY ds with
          | some t => some t
          | none => parseISODT ds

/-- Characters kept by the `re.sub(r'[^0-9.-]', '', ...)` stripping step of
`parse_number`. -/
def isNumKeepChar (c : Char) : Bool := isDigitChar c || c == '.' || c == '-'

/-- Python `float(s)` on a string made only of digits, `.` and `-`
(`float('')`, `float('-')`, `float('.')`, embedded `-` and repeated `.` all
raise). -/
def floatOfString (s : String) : Option ℚ :=
  let cs0 := s.data
  let neg := cs0.headD ' ' == '-'
  let cs := if neg then cs0.tail else cs0
  let signed : ℚ → ℚ := fun q => if neg then -q else q
  match splitOnChar '.' cs with
  | [ip] =>
      if ip ≠ [] && allDigits ip then some (signed (digitsToNat ip)) else none
  | [ip, fp] =>
      if (ip ≠ [] || fp ≠ []) && allDigits ip && allDigits fp then
        some (signed ((digitsToNat ip : ℚ) + (digitsToNat fp : ℚ) / (10 : ℚ) ^ fp.length))
      else none
  | _ => none

/-- `parse_number`: null markers and Python-falsy values → `None`; numeric
values pass through; strings are stripped to `[0-9.-]` and converted with
`float`. -/
def parse_number (v : Val) : Option ℚ :=
  match v with
  | .null => none
  | w =>
      let sv := standardize_missing_values w
      if ¬ pyTruthy sv then none
      else match sv with
        | .num q => some q
        | .bool b => some (if b then 1 else 0)
        | sv2 => floatOfString ⟨(pyStr sv2).data.filter isNumKeepChar⟩

/-- `parse_boolean`: case-insensitive membership in
`{'true','yes','1','y'}`; null is `False`. -/
def parse_boolean (v : Val) : Bool :=
  match v with
  | .null => false
  | w => sLower (sTrim (pyStr w)) ∈ (["true", "yes", "1", "y"] : List String)

/-- `get_order_week`: bucket the day of month into the fixed ranges
1–7, 8–14, 15–21, 22–28 and 29–end-of-month, and render
`"YYYY-MM-DD-DD"`. -/
def get_order_week (d : Option DT) : Option String :=
  match d with
  | none => none
  | some date =>
      let day := date.day
      let bucket : Nat × Nat :=
        if 1 ≤ day ∧ day ≤ 7 then (1, 7)
        else if 8 ≤ day ∧ day ≤ 14 then (8, 14)
        else if 15 ≤ day ∧ day ≤ 21 then (15, 21)
        else if 22 ≤ day ∧ day ≤ 28 then (22, 28)
        else
          let lastDay :=
            if date.month = 12 then 31
            else if date.month = 4 ∨ date.month = 6 ∨ date.month = 9 ∨ date.month = 11 then 30
            else if date.month = 2 then (if isLeapYear date.year then 29 else 28)
            else 31
          (29, lastDay)
      some (toString date.year ++ "-" ++ z2 date.month ++ "-"
              ++ z2 bucket.1 ++ "-" ++ z2 bucket.2)

/-- `normalize_for_comparison` inside `get_delivery_status`: remove
whitespace, hyphens and underscores, and uppercase. -/
def normalize_for_comparison (s : String) : String :=
  sUpper ⟨s.data.filter (fun c => ¬ (isSpaceChar c || c == '-' || c == '_'))⟩

/-- The fixed list of explicit statuses preserved by
`get_delivery_status`. -/
def explicit_statuses : List String :=
  ["CANCELED", "CANCELLED", "CANCEL",
   "DESTROYED", "LOST", "UNTRACEABLE",
   "PICKUP EXCEPTION",
   "REACHED BACK AT_SELLER_CITY",
   "REACHED DESTINATION HUB",
   "RTO DELIVERED", "RTO IN TRANSIT", "RTO INITIATED", "RTO NDR",
   "UNDELIVERED-1ST ATTEMPT", "UNDELIVERED-2ND ATTEMPT", "UNDELIVERED-3RD ATTEMPT",
   "UNDELIVERED-1ST-ATTEMPT", "UNDELIVERED-2ND-ATTEMPT", "UNDELIVERED-3RD-ATTEMPT",
   "OUT FOR DELIVERY", "OUT FOR PICKUP", "PICKED UP",
   "IN TRANSIT", "IN TRANSIT-AT DESTINATION HUB"]

/-- One iteration of the explicit-status loop: exact match, normalized
match, or substring containment in either direction. -/
def statusMatches (status_str normalized_status explicit_status : String) : Bool :=
  let normalized_explicit := normalize_for_comparison explicit_status
  status_str == explicit_status
    || normalized_status == normalized_explicit
    || strContainsSub normalized_explicit normalized_status
    || strContainsSub normalized_status normalized_explicit

/-- The `x and str(x).upper() not in ['N/A', "'", 'NONE', 'NAN']` test used
for every date signal in `get_delivery_status`. -/
def dateSignal (v : Val) : Bool :=
  pyTruthy v && ¬ (sUpper (pyStr v) ∈ (["N/A", "'", "NONE", "NAN"] : List String))

/-- `get_delivery_status`: the ordered decision list deriving the canonical
delivery status of one row. -/
def get_delivery_status (row : Row) : String :=
  let status_field :=
    pyOrV (rowGet row "status")
      (pyOrV (rowGet row "original_status")
        (pyOrV (rowGet row "delivery_status")
          (pyOrV (rowGet row "current_status") (.str ""))))
  let status_str := sTrim (sUpper (pyStr status_field))
  let ns := normalize_for_comparison status_str
  if explicit_statuses.any (statusMatches status_str ns) then
    if strContainsSub ns "RTODELIVERED" then "RTO DELIVERED"
    else if strContainsSub ns "RTOINITIATED" then "RTO INITIATED"
    else if strContainsSub ns "RTOINTRANSIT" then "RTO IN TRANSIT"
    else if strContainsSub ns "RTONDR" then "RTO NDR"
    else status_str
  else
    let delivered_date :=
      pyOrV (rowGet row "order_delivered_date")
        (pyOrV (rowGet row "delivery_date") (rowGet row "delivered_date"))
    if dateSignal delivered_date then "DELIVERED"
    else
      let ndr_date := pyOrV (rowGet row "latest_n_d_r__date") (rowGet row "ndr_date")
      if dateSignal ndr_date then "NDR"
      else
        let has_rto_status :=
          strContainsSub ns "RTODELIVERED" || strContainsSub ns "RTOINITIATED"
            || strContainsSub ns "RTOINTRANSIT" || strContainsSub ns "RTONDR"
        let rto_date := pyOrV (rowGet row "r_t_o__initiated__date") (rowGet row "rto_date")
        if ¬ has_rto_status ∧ dateSignal rto_date then
          let rto_delivered_date :=
            pyOrV (rowGet row "r_t_o__delivered__date") (rowGet row "rto_delivered_date")
          if dateSignal rto_delivered_date then "RTO DELIVERED" else "RTO INITIATED"
        else
          let ofd_date :=
            pyOrV (rowGet row "first_out_for_delivery_date") (rowGet row "latest_o_f_d__date")
          if dateSignal ofd_date then "OFD"
          else if status_str ≠ "" ∧ ¬ (status_str ∈ (["N/A", "NONE", "NULL", ""] : List String))
          then status_str
          else "PENDING"

/-- `get_address_quality`: concatenated-address length classification
(INVALID under 10 characters or no address line 1, SHORT under 30 or a
missing city/state/pincode, else GOOD). -/
def get_address_quality (row : Row) : String :=
  let part : String → String → String := fun a b =>
    pyStr (pyOrV (rowGet row a) (pyOrV (rowGet row b) (.str "")))
  let address_line1 := pyStr (pyOrV (rowGet row "address_line_1") (.str ""))
  let address_line2 := pyStr (pyOrV (rowGet row "address_line_2") (.str ""))
  let city := part "city" "address_city"
  let state := part "state" "address_state"
  let pincode := part "pincode" "address_pincode"
  let full_address := sTrim (address_line1 ++ " " ++ address_line2 ++ " "
    ++ city ++ " " ++ state ++ " " ++ pincode)
  if address_line1 = "" ∨ sLower address_line1 ∈ (["none", "n/a"] : List String)
      ∨ full_address.data.length < 10 then "INVALID"
  else if city = "" ∨ state = "" ∨ pincode = ""
      ∨ sLower city ∈ (["none", "n/a"] : List String)
      ∨ sLower state ∈ (["none", "n/a"] : List String)
      ∨ sLower pincode ∈ (["none", "n/a"] : List String) then "SHORT"
  else if full_address.data.length < 30 then "SHORT"
  else "GOOD"

/-- `calculate_tat`: hours between two timestamps, `None` unless both are
present and the difference is non-negative. -/
def calculate_tat (start_date end_date : Option DT) : Option ℚ :=
  match start_date, end_date with
  | some a, some b =>
      let diff : ℚ := ((epochSecs b - epochSecs a : Int) : ℚ) / 3600
      if 0 ≤ diff then some diff else none
  | _, _ => none

/-! ### `preprocess_shipping_data` — the columnar pandas pipeline

A pandas `DataFrame` is a row count together with an ordered list of named
columns.  `pd.concat(axis=1)` appends columns and happily creates duplicate
names; `df[k] = col` replaces the first column named `k` in place (or
appends); `df[k]` and `row.get(k)` read the first occurrence.  (On a frame
with duplicated names, real pandas raises in some of these spots; the
embedding reads the first occurrence instead, which only makes re-running
the pipeline better behaved than reality.) -/

/-- A pandas DataFrame: row count and ordered, possibly duplicated, named
columns. -/
structure PdFrame where
  nrows : Nat
  cols : List (String × List Val)
deriving Repr

/-- Is the cell non-null (`notna`)? -/
def valNotNull : Val → Bool
  | .null => false
  | _ => true

/-- `df[k]` / first column of the given name. -/
def pdGetCol (F : PdFrame) (k : String) : Option (List Val) :=
  match F.cols.find? (fun kc => kc.1 = k) with
  | some kc => some kc.2
  | none => none

/-- `k in df.columns`. -/
def pdHasCol (F : PdFrame) (k : String) : Bool :=
  (F.cols.map Prod.fst).contains k

/-- Replace the first column named `k` in place, or append it
(`df[k] = col`). -/
def pdSetColList : List (String × List Val) → String → List Val → List (String × List Val)
  | [], k, c => [(k, c)]
  | kc :: r, k, c => if kc.1 = k then (k, c) :: r else kc :: pdSetColList r k c

/-- `df[k] = col` on a frame. -/
def pdSetCol (F : PdFrame) (k : String) (c : List Val) : PdFrame :=
  ⟨F.nrows, pdSetColList F.cols k c⟩

/-- `pd.concat([df, new], axis=1)`: append columns (duplicates allowed). -/
def pdConcat (F : PdFrame) (newCols : List (String × List Val)) : PdFrame :=
  ⟨F.nrows, F.cols ++ newCols⟩

/-- Row `i` of the frame as seen by `df.apply(f, axis=1)`. -/
def pdRowAt (F : PdFrame) (i : Nat) : Row :=
  F.cols.map (fun kc => (kc.1, kc.2.getD i .null))

/-- `df.apply(f, axis=1)` as a new column. -/
def pdApplyRows (F : PdFrame) (f : Row → Val) : List Val :=
  (List.range F.nrows).map (fun i => f (pdRowAt F i))

/-- A scalar broadcast to a whole column (assigning a Python scalar or
`None` to a DataFrame column). -/
def constCol (F : PdFrame) (v : Val) : List Val :=
  List.replicate F.nrows v

/-- The `date_fields` source-priority table of `preprocess_shipping_data`. -/
def date_fields : List (String × List String) :=
  [("order_date", ["shiprocket__created__at", "shiprocket_created_at", "channel__created__at",
      "channel_created_at", "order_date", "order_placed_date", "created_at"]),
   ("pickup_date", ["order__picked__up__date", "order_picked_up_date", "pickedup__timestamp",
      "pickedup_timestamp", "pickup_date", "pickup_datetime", "pickup__first__attempt__date",
      "pickup_first_attempt_date"]),
   ("ofd_date", ["first__out__for__delivery__date", "first_out_for_delivery_date",
      "latest__o_f_d__date", "latest_o_f_d__date", "latest_ofd_date", "ofd_date",
      "ofd_datetime", "out_for_delivery_date"]),
   ("delivery_date", ["order__delivered__date", "order_delivered_date", "delivery_date",
      "delivered_date", "delivered_datetime"]),
   ("ndr_date", ["latest__n_d_r__date", "latest_n_d_r__date", "latest_ndr_date",
      "n_d_r_1__attempt__date", "ndr_1_attempt_date", "ndr_2_attempt_date",
      "ndr_3_attempt_date", "ndr_date", "ndr_datetime"]),
   ("rto_date", ["r_t_o__initiated__date", "r_t_o__delivered__date", "rto_initiated_date",
      "rto_delivered_date", "rto_date", "rto_datetime"])]

/-- The `number_fields` table. -/
def number_fields : List (String × List String) :=
  [("order_value", ["order_total", "order_value", "price", "amount", "gmv_amount",
      "total_order_value"]),
   ("order_price", ["product_price"]),
   ("weight", ["weight_k_g", "weight"]),
   ("order_risk_score", ["order_risk", "address_score"])]

/-- The `boolean_fields` list. -/
def boolean_fields : List String :=
  ["ndr", "rto", "cancelled", "canceled", "address_verified", "is_verified"]

/-- Cell of a parsed-datetime column. -/
def dtValOf : Option DT → Val
  | some t => .dt t
  | none => .null

/-- Cell of an ISO-string date column (`strftime('%Y-%m-%d')` of the parsed
value, null when unparsed). -/
def isoStrOf : Option DT → Val
  | some t => .str (fmtISODate t)
  | none => .null

/-- Read a parsed-datetime cell back. -/
def dtOf : Val → Option DT
  | .dt t => some t
  | _ => none

/-- The per-target date-source scan of `preprocess_shipping_data`: the first
source column present whose parse has any non-null value wins; columns that
are present but entirely unparseable are skipped. -/
def findDateSource (F : PdFrame) : List String → Option (String × List (Option DT))
  | [] => none
  | s :: rest =>
      match pdGetCol F s with
      | none => findDateSource F rest
      | some c =>
          let parsed := c.map parse_date
          if parsed.any Option.isSome then some (s, parsed) else findDateSource F rest

/-- Resolved date targets: target name, winning source name, parsed
values. -/
def resolvedDates (F : PdFrame) : List (String × String × List (Option DT)) :=
  date_fields.foldr
    (fun tf acc =>
      match findDateSource F tf.2 with
      | some (src, parsed) => (tf.1, src, parsed) :: acc
      | none => acc)
    []

/-- Cell of a parsed-number column. -/
def numValOf : Option ℚ → Val
  | some q => .num q
  | none => .null

/-- The number-field scan: each source in turn is parsed and assigned to the
target (`df[target] = ...`), and the loop stops at the first assignment with
any non-null value — so an all-null parse is left in place only until a
later source overwrites it. -/
def applyNumberTarget (F : PdFrame) (target : String) : List String → PdFrame
  | [] => F
  | s :: rest =>
      match pdGetCol F s with
      | none => applyNumberTarget F target rest
      | some c =>
          let col := c.map (fun v => numValOf (parse_number v))
          let F2 := pdSetCol F target col
          if col.any valNotNull then F2 else applyNumberTarget F2 target rest

/-- All four number targets, in table order. -/
def applyNumberFields (F : PdFrame) : PdFrame :=
  number_fields.foldl (fun acc tf => applyNumberTarget acc tf.1 tf.2) F

/-- In-place boolean parsing of the `boolean_fields` columns. -/
def applyBooleanFields (F : PdFrame) : PdFrame :=
  boolean_fields.foldl
    (fun acc f =>
      match pdGetCol acc f with
      | some c => pdSetCol acc f (c.map (fun v => .bool (parse_boolean v)))
      | none => acc)
    F

/-- First field of the list present in the frame, with its column. -/
def resolveFirstCol (F : PdFrame) : List String → Option (List Val)
  | [] => none
  | f :: rest =>
      match pdGetCol F f with
      | some c => some c
      | none => resolveFirstCol F rest

/-- Optional `field_mappings` entry: present exactly when a source field
resolves. -/
def optMapping (F : PdFrame) (target : String) (fields : List String) : List (String × List Val) :=
  match resolveFirstCol F fields with
  | some c => [(target, c)]
  | none => []

/-- The `category` cleanup applied after the mapping concat: `fillna` plus
replacement of the `'none'/'N/A'/''` markers by `Uncategorized`. -/
def cleanCategoryCell (v : Val) : Val :=
  match v with
  | .null => .str "Uncategorized"
  | .str s => if s = "none" ∨ s = "N/A" ∨ s = "" then .str "Uncategorized" else .str s
  | w => w

/-- `astype(str).str.upper()` of the raw status column (missing values
render as `"None"`, exactly as pandas stringifies them). -/
def statusUpperCell (v : Val) : Val := .str (sUpper (pyStr v))

/-- `str.contains('CANCEL', na=False)` on the `status_upper` column. -/
def containsCancelCell (v : Val) : Bool :=
  match v with
  | .str s => strContainsSub s "CANCEL"
  | _ => false

/-- `df[field].notna() & ~df[field].isin(['none', 'N/A', None, ''])` for the
cancellation-reason column. -/
def reasonPresentCell (v : Val) : Bool :=
  match v with
  | .null => false
  | .str s => ¬ (s = "none" ∨ s = "N/A" ∨ s = "")
  | _ => true

/-- `field_mappings` of `preprocess_shipping_data`, in dict insertion
order. -/
def fieldMappings (F : PdFrame) : List (String × List Val) :=
  let categoryMapping := resolveFirstCol F ["product_category", "category"]
  let catCond :=
    categoryMapping.isNone
      || (match pdGetCol F "category" with
          | some c => c.all (fun v => ¬ valNotNull v)
          | none => false)
  let categoryCol :=
    if catCond then constCol F (.str "Uncategorized") else categoryMapping.getD []
  let channelCol :=
    match resolveFirstCol F ["channel", "channel__"] with
    | some c => c
    | none => constCol F .null
  [("category", categoryCol), ("channel", channelCol)]
    ++ optMapping F "state" ["address_state", "state"]
    ++ optMapping F "address_line_1" ["address_line_1", "address_line1"]
    ++ optMapping F "address_line_2" ["address_line_2", "address_line2"]
    ++ optMapping F "city" ["address_city", "city"]
    ++ optMapping F "pincode" ["address_pincode", "pincode"]
    ++ optMapping F "sku" ["master_s_k_u", "channel_s_k_u", "sku"]
    ++ optMapping F "product_name" ["product_name", "product__name"]
    ++ optMapping F "payment_method" ["payment_method", "payment__method"]
    ++ (match pdGetCol F "status" with
        | some c => [("original_status", c)]
        | none => [])

/-- Column of week-bucket labels derived from the parsed order-date column. -/
def orderWeekCol (F : PdFrame) (resolved : List (String × String × List (Option DT))) : List Val :=
  match resolved.find? (fun e => e.1 = "order_date") with
  | some e =>
      match pdGetCol F (e.2.1 ++ "_parsed") with
      | some c => c.map (fun v =>
          match get_order_week (dtOf v) with
          | some s => .str s
          | none => .null)
      | none => constCol F .null
  | none => constCol F .null

/-- Flag column derived from a parsed date column (`notna()`), or the
broadcast `False` when the date target never resolved. -/
def dateFlagCol (F : PdFrame) (resolved : List (String × String × List (Option DT)))
    (target : String) : List Val :=
  match resolved.find? (fun e => e.1 = target) with
  | some e =>
      match pdGetCol F (e.2.1 ++ "_parsed") with
      | some c => c.map (fun v => .bool (valNotNull v))
      | none => constCol F (.bool false)
  | none => constCol F (.bool false)

/-- The `cancelled_flag` column: status contains CANCEL, or a non-marker
cancellation reason is present. -/
def cancelledFlagCol (F : PdFrame) : List Val :=
  let statusUpper := (pdGetCol F "status_upper").getD (constCol F .null)
  match resolveFirstCol F ["cancellation_reason", "cancellation__reason"] with
  | some reasons =>
      (statusUpper.zip reasons).map
        (fun sv => .bool (containsCancelCell sv.1 || reasonPresentCell sv.2))
  | none => statusUpper.map (fun v => .bool (containsCancelCell v))

/-- One TAT column computed row-wise with `calculate_tat` over two parsed
date columns, or the broadcast `None` when either target is unresolved. -/
def tatCol (F : PdFrame) (resolved : List (String × String × List (Option DT)))
    (startTarget endTarget : String) : List Val :=
  match resolved.find? (fun e => e.1 = startTarget),
        resolved.find? (fun e => e.1 = endTarget) with
  | some sa, some sb =>
      pdApplyRows F (fun r =>
        numValOf (calculate_tat (dtOf (rowGet r (sa.2.1 ++ "_parsed")))
                                (dtOf (rowGet r (sb.2.1 ++ "_parsed")))))
  | _, _ => constCol F .null

/-- Does the column name end in `_parsed`? -/
def endsWithParsed (k : String) : Bool :=
  ("_parsed".data).isSuffixOf k.data

/-- `preprocess_shipping_data`, the full ingestion-time pipeline.  The
wall-clock `processed_at` stamp is passed in as `now` to keep the embedding
deterministic. -/
def preprocess_shipping_data (now : DT) (F0 : PdFrame) : PdFrame :=
  let F1 : PdFrame :=
    ⟨F0.nrows, F0.cols.map (fun kc => (to_snake_case kc.1, kc.2))⟩
  let F1 : PdFrame :=
    ⟨F1.nrows, F1.cols.map (fun kc => (kc.1, kc.2.map standardize_missing_values))⟩
  let resolved := resolvedDates F1
  let F2 := pdConcat F1 (resolved.map (fun e => (e.2.1 ++ "_parsed", e.2.2.map dtValOf)))
  let F2 := pdConcat F2 (resolved.map (fun e => (e.1, e.2.2.map isoStrOf)))
  let F2 := applyNumberFields F2
  let F2 := applyBooleanFields F2
  let F3 := pdConcat F2 (fieldMappings F2)
  let F3 :=
    match pdGetCol F3 "category" with
    | some c => pdSetCol F3 "category" (c.map cleanCategoryCell)
    | none => F3
  let statusUpper :=
    match pdGetCol F3 "status" with
    | some c => c.map statusUpperCell
    | none => constCol F3 .null
  let F4 := pdConcat F3 [("order_week", orderWeekCol F3 resolved), ("status_upper", statusUpper)]
  let F5 := pdConcat F4
    [("ndr_flag", dateFlagCol F4 resolved "ndr_date"),
     ("rto_flag", dateFlagCol F4 resolved "rto_date"),
     ("cancelled_flag", cancelledFlagCol F4),
     ("delivery_status", pdApplyRows F4 (fun r => .str (get_delivery_status r))),
     ("address_quality", pdApplyRows F4 (fun r => .str (get_address_quality r)))]
  let F6 := pdConcat F5
    ([("order_to_pickup_tat", tatCol F5 resolved "order_date" "pickup_date"),
      ("pickup_to_ofd_tat", tatCol F5 resolved "pickup_date" "ofd_date"),
      ("ofd_to_delivery_tat", tatCol F5 resolved "ofd_date" "delivery_date"),
      ("total_tat", tatCol F5 resolved "order_date" "delivery_date")]
      ++ (if pdHasCol F5 "order_risk_score" then []
          else [("order_risk_score", constCol F5 (.num 0))])
      ++ [("processed_at", constCol F5 (.dt now))])
  ⟨F6.nrows, F6.cols.filter (fun kc => ¬ (endsWithParsed kc.1 || kc.1 == "status_upper"))⟩

/-! ### `backend/analytics.py` — Polars normalization, filtering, aggregation

A Polars frame is a schema (ordered column names) plus materialized rows.
Every expression used by `normalize_dataframe_pl` is elementwise, so a
`with_columns` batch acts row by row as a `writeCells` upsert; `filter` keeps
the rows whose boolean mask cell is `true` (null masks drop the row). -/

/-- A Polars DataFrame/LazyFrame: schema and rows. -/
structure PlFrame where
  cols : List String
  rows : List Row
deriving Repr

/-- The `COLUMN_MAP` alias lists used by the claims. -/
def COLUMN_MAP_status : List String := ["original_status", "status", "delivery_status"]

def COLUMN_MAP_order_date : List String :=
  ["order_date", "order__date", "created_at", "shiprocket__created__at", "shiprocket_created_at"]

def COLUMN_MAP_order_value : List String :=
  ["order_value", "gmv_amount", "order_total", "order__total", "total_order_value"]

def COLUMN_MAP_payment : List String :=
  ["payment__method", "payment_method", "paymentmethod", "payment", "method", "type", "Payment Type"]

def COLUMN_MAP_state : List String :=
  ["state", "address__state", "Address State", "address_state"]

def COLUMN_MAP_sku : List String :=
  ["channel__s_k_u", "master__s_k_u", "master_sku", "master_s_k_u", "sku", "channel_sku", "channel_s_k_u"]

def COLUMN_MAP_product : List String := ["product__name", "product_name", "product__name"]

def COLUMN_MAP_pickup_date : List String :=
  ["order_picked_up_date", "order__picked__up__date", "pickedup_timestamp", "pickup_date"]

def COLUMN_MAP_ofd_date : List String :=
  ["first_out_for_delivery_date", "first__out__for__delivery__date", "latest_ofd_date",
   "latest__o_f_d__date", "ofd_date"]

def COLUMN_MAP_awb_date : List String := ["awb_assigned_date", "awb__assigned__date", "awb_date"]

def COLUMN_MAP_approval_date : List String :=
  ["approval_date", "approval__date", "order_approved_date", "order__approved__date"]

def COLUMN_MAP_courier : List String :=
  ["courier_company", "courier__company", "master_courier", "master__courier", "courier_name"]

def COLUMN_MAP_channel : List String := ["channel", "source", "platform", "channel_name"]

def COLUMN_MAP_ndr_description : List String :=
  ["latest__n_d_r__reason", "latest_ndr_reason", "ndr_reason", "ndr_description", "reason"]

/-- `resolve_column`: first alias present in the column set. -/
def resolve_column (df_columns : List String) : List String → Option String
  | [] => none
  | c :: keys => if c ∈ df_columns then some c else resolve_column df_columns keys

/-- `cast(pl.Utf8)` of a cell (null propagates; non-string scalars render to
their text form, a corner the pipeline does not exercise for the claims). -/
def castUtf8 : Val → Option String
  | .null => none
  | .str s => some s
  | .num q => some (toString q)
  | .bool b => some (if b then "true" else "false")
  | .dt t => some (fmtDT t)

/-- `cast(pl.Float64, strict=False)` of a cell: numbers pass, numeric
strings parse, anything else (and null) is null. -/
def castFloat : Val → Option ℚ
  | .null => none
  | .num q => some q
  | .str s => floatOfString s
  | .bool b => some (if b then 1 else 0)
  | .dt _ => none

/-- `cast(pl.Boolean).fill_null(False)` of a flag cell. -/
def castBoolFill : Val → Val
  | .bool b => .bool b
  | .null => .bool false
  | .num q => .bool (q ≠ 0)
  | _ => .bool false

/-- An elementwise column expression with a literal fallback when no source
column resolved (`pl.lit(...)`): the common shape of every base expression
in `normalize_dataframe_pl`. -/
def colCell (dflt : Val) (g : Val → Val) (oc : Option String) (r : Row) : Val :=
  match oc with
  | none => dflt
  | some c => g (rowGet r c)

/-- `_status` cell: Utf8 cast, uppercase, `[_-]`→space, strip. -/
def statusCellFn (v : Val) : Val :=
  match castUtf8 v with
  | none => .null
  | some s => .str (sTrim ⟨(sUpper s).data.map (fun c => if c = '_' ∨ c = '-' then ' ' else c)⟩)

/-- `_payment` / `_state` / `_courier` cell: Utf8 cast, strip, uppercase. -/
def stripUpperCellFn (v : Val) : Val :=
  match castUtf8 v with
  | none => .null
  | some s => .str (sUpper (sTrim s))

/-- `_ndr_description` cell: Utf8 cast, strip. -/
def stripCellFn (v : Val) : Val :=
  match castUtf8 v with
  | none => .null
  | some s => .str (sTrim s)

/-- `_order_value` cell: non-strict Float64 cast with `fill_null(0.0)`. -/
def orderValueCellFn (v : Val) : Val :=
  match castFloat v with
  | some q => .num q
  | none => .num 0

/-- Datetime cell: Utf8 cast then `str.to_datetime(strict=False)`. -/
def dateCellFn (v : Val) : Val :=
  match castUtf8 v with
  | none => .null
  | some s => match parseISODT s with
    | some t => .dt t
    | none => .null

/-- A `(pl.col a - pl.col b).dt.total_seconds() / 3600 / 24` cell (null
propagates). -/
def tatCellPl (a b : String) (r : Row) : Val :=
  match dtOf (rowGet r a), dtOf (rowGet r b) with
  | some x, some y => .num (((epochSecs x - epochSecs y : Int) : ℚ) / 3600 / 24)
  | _, _ => .null

/-- The same with `fill_null(0.0)` (the `tat_order_to_approval` column). -/
def tatCellPlFill0 (a b : String) (r : Row) : Val :=
  match dtOf (rowGet r a), dtOf (rowGet r b) with
  | some x, some y => .num (((epochSecs x - epochSecs y : Int) : ℚ) / 3600 / 24)
  | _, _ => .num 0

/-- `_order_week` cell: ISO week number of `_order_date`, cast to Utf8. -/
def weekCellPl (r : Row) : Val :=
  match dtOf (rowGet r "_order_date") with
  | some t => .str (toString (isoWeek t))
  | none => .null

/-- `_is_cancelled` cell. -/
def cancelCellPl (hasCancelledFlag : Bool) (r : Row) : Val :=
  if hasCancelledFlag then castBoolFill (rowGet r "cancelled_flag")
  else
    match rowGet r "_status" with
    | .str s => .bool (strContainsSub s "CANCEL")
    | _ => .null

/-- `_is_delivered` cell (`_status == "DELIVERED"`, null propagates). -/
def delCellPl (r : Row) : Val :=
  match rowGet r "_status" with
  | .str s => .bool (s == "DELIVERED")
  | _ => .null

/-- `_is_rto` cell (`_status.str.contains("RTO")`, null propagates). -/
def rtoCellPl (r : Row) : Val :=
  match rowGet r "_status" with
  | .str s => .bool (strContainsSub s "RTO")
  | _ => .null

/-- `_is_ndr` cell. -/
def ndrCellPl (hasNdrFlag : Bool) (r : Row) : Val :=
  if hasNdrFlag then castBoolFill (rowGet r "ndr_flag") else .bool false

/-- Resolved source columns of `normalize_dataframe_pl` (one `resolve_column`
call per canonical field, plus the two flag-column membership tests). -/
structure PlParams where
  sc : Option String
  pc : Option String
  ovc : Option String
  dc : Option String
  pdc : Option String
  oc : Option String
  awc : Option String
  apc : Option String
  stc : Option String
  cc : Option String
  nc : Option String
  hasCF : Bool
  hasNF : Bool

/-- The parameters as resolved from a schema. -/
def plParamsOf (cols : List String) : PlParams :=
  ⟨resolve_column cols COLUMN_MAP_status,
   resolve_column cols COLUMN_MAP_payment,
   resolve_column cols COLUMN_MAP_order_value,
   resolve_column cols COLUMN_MAP_order_date,
   resolve_column cols COLUMN_MAP_pickup_date,
   resolve_column cols COLUMN_MAP_ofd_date,
   resolve_column cols COLUMN_MAP_awb_date,
   resolve_column cols COLUMN_MAP_approval_date,
   resolve_column cols COLUMN_MAP_state,
   resolve_column cols COLUMN_MAP_courier,
   resolve_column cols COLUMN_MAP_ndr_description,
   "cancelled_flag" ∈ cols,
   "ndr_flag" ∈ cols⟩

/-- First `with_columns` batch of `normalize_dataframe_pl`, row-wise. -/
def plDerived1 (p : PlParams) (r : Row) : List (String × Val) :=
  [("_status", colCell (.str "UNKNOWN") statusCellFn p.sc r),
   ("_payment", colCell (.str "NAN") stripUpperCellFn p.pc r),
   ("_order_value", colCell (.num 0) orderValueCellFn p.ovc r),
   ("_order_date", colCell .null dateCellFn p.dc r),
   ("_pickup_date", colCell .null dateCellFn p.pdc r),
   ("_ofd_date", colCell .null dateCellFn p.oc r),
   ("_awb_date", colCell .null dateCellFn p.awc r),
   ("_approval_date", colCell .null dateCellFn p.apc r),
   ("_state", colCell (.str "UNKNOWN") stripUpperCellFn p.stc r),
   ("_courier", colCell (.str "UNKNOWN") stripUpperCellFn p.cc r),
   ("_ndr_description", colCell (.str "Unknown") stripCellFn p.nc r)]

/-- Second `with_columns` batch: the six TAT columns (in days). -/
def plDerived2 (r : Row) : List (String × Val) :=
  [("tat_order_to_pickup", tatCellPl "_pickup_date" "_order_date" r),
   ("tat_order_to_approval", tatCellPlFill0 "_approval_date" "_order_date" r),
   ("tat_approval_to_awb", tatCellPl "_awb_date" "_approval_date" r),
   ("tat_awb_to_pickup", tatCellPl "_pickup_date" "_awb_date" r),
   ("tat_pickup_to_ofd", tatCellPl "_ofd_date" "_pickup_date" r),
   ("tat_order_to_ofd", tatCellPl "_ofd_date" "_order_date" r)]

/-- Third `with_columns` batch: week label and classification flags. -/
def plDerived3 (p : PlParams) (r : Row) : List (String × Val) :=
  [("_order_week", weekCellPl r),
   ("_is_cancelled", cancelCellPl p.hasCF r),
   ("_is_delivered", delCellPl r),
   ("_is_rto", rtoCellPl r),
   ("_is_ndr", ndrCellPl p.hasNF r)]

/-- The names written by the first batch, in order. -/
def plNames1 : List String :=
  ["_status", "_payment", "_order_value", "_order_date", "_pickup_date", "_ofd_date",
   "_awb_date", "_approval_date", "_state", "_courier", "_ndr_description"]

/-- The names written by the second batch, in order. -/
def plNames2 : List String :=
  ["tat_order_to_pickup", "tat_order_to_approval", "tat_approval_to_awb",
   "tat_awb_to_pickup", "tat_pickup_to_ofd", "tat_order_to_ofd"]

/-- The names written by the third batch, in order. -/
def plNames3 : List String :=
  ["_order_week", "_is_cancelled", "_is_delivered", "_is_rto", "_is_ndr"]

/-- The names written by the three batches, in order. -/
def plDerivedNames : List String := plNames1 ++ plNames2 ++ plNames3

/-- A resolved source column is safe when it cannot collide with a derived
column name (every `COLUMN_MAP` alias satisfies this). -/
def srcSafe (oc : Option String) : Prop :=
  ∀ c, oc = some c → c ∉ plNames1 ∧ c ∉ plNames2 ∧ c ∉ plNames3

/-- All resolved parameters are safe. -/
def paramsSafe (p : PlParams) : Prop :=
  srcSafe p.sc ∧ srcSafe p.pc ∧ srcSafe p.ovc ∧ srcSafe p.dc ∧ srcSafe p.pdc
    ∧ srcSafe p.oc ∧ srcSafe p.awc ∧ srcSafe p.apc ∧ srcSafe p.stc ∧ srcSafe p.cc
    ∧ srcSafe p.nc

/-- State of a row after the first `with_columns` batch. -/
def plStage1 (p : PlParams) (r : Row) : Row :=
  writeCells r (plDerived1 p r)

/-- State of a row after the second `with_columns` batch. -/
def plStage2 (p : PlParams) (r : Row) : Row :=
  writeCells (plStage1 p r) (plDerived2 (plStage1 p r))

/-- Row-wise effect of `normalize_dataframe_pl`: the three sequential
`with_columns` batches. -/
def normalize_row_pl (p : PlParams) (r : Row) : Row :=
  writeCells (plStage2 p r) (plDerived3 p (plStage2 p r))

/-- `normalize_dataframe_pl`. -/
def normalize_dataframe_pl (F : PlFrame) : PlFrame :=
  ⟨addCols F.cols plDerivedNames, F.rows.map (normalize_row_pl (plParamsOf F.cols))⟩

/-- The normalize-once step of `compute_all_analytics`: skip when the
canonical `_status` column is already present. -/
def normalize_once_pl (F : PlFrame) : PlFrame :=
  if "_status" ∈ F.cols then F else normalize_dataframe_pl F

/-! #### `filter_shipping_data_pl` -/

/-- One optional filter value: absent (or Python-falsy), a single string, or
a list of strings. -/
inductive FilterVal where
  | absent : FilterVal
  | one (s : String) : FilterVal
  | many (xs : List String) : FilterVal
deriving Repr

/-- `filters.get(k) and filters[k] != "All" and filters[k] != []`. -/
def FilterVal.active : FilterVal → Bool
  | .absent => false
  | .one s => ¬ (s = "" ∨ s = "All")
  | .many xs => ¬ xs.isEmpty

/-- The recognized filter keys (`startDate`/`endDate` arrive as date strings
and are modelled already parsed; a Python-falsy value is `none`). -/
structure FilterSpec where
  startDate : Option DT
  endDate : Option DT
  orderStatus : FilterVal
  paymentMethod : FilterVal
  channel : FilterVal
  state : FilterVal
  courier : FilterVal
  sku : FilterVal
  productName : FilterVal
  ndrDescription : FilterVal

/-- The all-absent filter spec. -/
def emptyFilters : FilterSpec :=
  ⟨none, none, .absent, .absent, .absent, .absent, .absent, .absent, .absent, .absent⟩

/-- String content of a cell, if it is a string. -/
def strOf : Val → Option String
  | .str s => some s
  | _ => none

/-- A filter step over a canonical (already normalized) column: the list
branch optionally uppercases the column, the single branch compares the raw
cell with the (optionally uppercased) value; null cells never match. -/
def stepCanonical (col : String) (upCol : Bool) (upVal : Bool) (fv : FilterVal)
    (rows : List Row) : List Row :=
  if fv.active then
    match fv with
    | .many xs => rows.filter (fun r =>
        match strOf (rowGet r col) with
        | some s => (if upCol then sUpper s else s) ∈ (if upVal then xs.map sUpper else xs)
        | none => false)
    | .one s => rows.filter (fun r =>
        match strOf (rowGet r col) with
        | some t => t = (if upVal then sUpper s else s)
        | none => false)
    | .absent => rows
  else rows

/-- A filter step over a raw column resolved through `COLUMN_MAP`; an
unresolved column makes the filter a no-op. -/
def stepResolved (aliases : List String) (cols : List String) (fv : FilterVal)
    (rows : List Row) : List Row :=
  if fv.active then
    match resolve_column cols aliases with
    | none => rows
    | some c =>
        match fv with
        | .many xs => rows.filter (fun r =>
            match strOf (rowGet r c) with
            | some s => s ∈ xs
            | none => false)
        | .one s => rows.filter (fun r =>
            match strOf (rowGet r c) with
            | some t => t = s
            | none => false)
        | .absent => rows
  else rows

/-- A date-bound filter step on `_order_date` (null dates are dropped once a
bound is set). -/
def stepDate (bound : Option DT) (isStart : Bool) (rows : List Row) : List Row :=
  match bound with
  | none => rows
  | some b => rows.filter (fun r =>
      match dtOf (rowGet r "_order_date") with
      | some t => if isStart then epochSecs b ≤ epochSecs t else epochSecs t ≤ epochSecs b
      | none => false)

/-- `filter_shipping_data_pl`: the conjunction of all active filter steps,
in source order.  The `orderStatus` list branch uppercases both the column
and the values; the `paymentMethod`/`state`/`courier` branches uppercase the
filter values only (the canonical columns are already uppercased); the
resolved raw columns (`channel`, `sku`, `productName`) and
`_ndr_description` match verbatim. -/
def filter_shipping_data_pl (filters : FilterSpec) (F : PlFrame) : PlFrame :=
  let rows := F.rows
  let rows := stepDate filters.startDate true rows
  let rows := stepDate filters.endDate false rows
  let rows :=
    (match filters.orderStatus with
     | .many xs => stepCanonical "_status" true true (.many xs) rows
     | fv => stepCanonical "_status" false true fv rows)
  let rows := stepCanonical "_payment" false true filters.paymentMethod rows
  let rows := stepResolved COLUMN_MAP_channel F.cols filters.channel rows
  let rows := stepCanonical "_state" false true filters.state rows
  let rows := stepCanonical "_courier" false true filters.courier rows
  let rows := stepResolved COLUMN_MAP_sku F.cols filters.sku rows
  let rows := stepResolved COLUMN_MAP_product F.cols filters.productName rows
  let rows := stepCanonical "_ndr_description" false false filters.ndrDescription rows
  ⟨F.cols, rows⟩

/-! #### Aggregates -/

/-- Truth of a boolean mask cell (null counts as false: Polars `sum` skips
nulls and `filter` drops null masks). -/
def isTrueCell (v : Val) : Bool :=
  match v with
  | .bool b => b
  | _ => false

/-- Numeric content of a cell for a column sum (nulls contribute nothing). -/
def numOrZero : Val → ℚ
  | .num q => q
  | _ => 0

/-- `compute_summary_metrics_pl`: the zeroed record on an empty frame, else
counts, delivered-GMV sum and the two percentage rates (guarded against a
zero denominator). -/
def compute_summary_metrics_pl (F : PlFrame) : List (String × ℚ) :=
  if F.rows.length = 0 then
    [("total_orders", 0), ("total_gmv", 0), ("delivery_rate", 0), ("rto_rate", 0)]
  else
    let total := F.rows.length
    let delivered := (F.rows.filter (fun r => isTrueCell (rowGet r "_is_delivered"))).length
    let ndr := (F.rows.filter (fun r => isTrueCell (rowGet r "_is_ndr"))).length
    let rto := (F.rows.filter (fun r => isTrueCell (rowGet r "_is_rto"))).length
    let gmv := ((F.rows.filter (fun r => isTrueCell (rowGet r "_is_delivered"))).map
      (fun r => numOrZero (rowGet r "_order_value"))).sum
    [("total_orders", total), ("total_delivered", delivered), ("total_ndr", ndr),
     ("total_rto", rto), ("total_gmv", gmv),
     ("delivery_rate", if total = 0 then 0 else (delivered : ℚ) / (total : ℚ) * 100),
     ("rto_rate", if total = 0 then 0 else (rto : ℚ) / (total : ℚ) * 100)]

/-- One group record of the top-10 aggregates. -/
structure GroupAgg where
  key : Val
  total_orders : Nat
  total_delivered : Nat
  order_share : ℚ
deriving Repr

/-- Distinct group keys of a column, in first-appearance order. -/
def distinctKeys (rows : List Row) (k : String) : List Val :=
  rows.foldl (fun acc r => if rowGet r k ∈ acc then acc else acc ++ [rowGet r k]) []

/-- Stable insertion of a group into a list sorted by descending
`order_share`. -/
def insertByShare (g : GroupAgg) : List GroupAgg → List GroupAgg
  | [] => [g]
  | h :: t => if g.order_share ≤ h.order_share then h :: insertByShare g t else g :: h :: t

/-- Stable sort by descending `order_share`. -/
def sortByShare (l : List GroupAgg) : List GroupAgg :=
  l.foldr insertByShare []

/-- `group_by(key)` with count, delivered count and order share. -/
def groupAggsOn (F : PlFrame) (key : String) : List GroupAgg :=
  let total := F.rows.length
  (distinctKeys F.rows key).map fun v =>
    let grp := F.rows.filter (fun r => rowGet r key = v)
    ⟨v, grp.length,
     (grp.filter (fun r => isTrueCell (rowGet r "_is_delivered"))).length,
     (grp.length : ℚ) / (total : ℚ) * 100⟩

/-- `compute_top_10_states_pl`: empty on an empty frame, else the groups by
`_state` sorted by descending order share and truncated to ten. -/
def compute_top_10_states_pl (F : PlFrame) : List GroupAgg :=
  if F.rows.length = 0 then []
  else (sortByShare (groupAggsOn F "_state")).take 10

/-- `compute_top_10_couriers_pl`: the same template over `_courier`. -/
def compute_top_10_couriers_pl (F : PlFrame) : List GroupAgg :=
  if F.rows.length = 0 then []
  else (sortByShare (groupAggsOn F "_courier")).take 10

/-- Lexicographic order on character lists (Python string comparison, used
by the pandas group-key sort). -/
def charListLe : List Char → List Char → Bool
  | [], _ => true
  | _ :: _, [] => false
  | a :: as, b :: bs => if a = b then charListLe as bs else decide (a < b)

/-- Group-key order of `groupby(sort=True, dropna=False)`: string keys
lexicographically ascending, the null (pandas `NaN`) group last.  The
`_order_week` keys are strings or null; other scalar kinds do not occur
there. -/
def valKeyLe (a b : Val) : Bool :=
  match a, b with
  | .str x, .str y => charListLe x.data y.data
  | .str _, _ => true
  | .null, .str _ => false
  | _, _ => true

/-- Stable insertion into an ascending key list. -/
def insertKeyAsc (v : Val) : List Val → List Val
  | [] => [v]
  | h :: t => if valKeyLe v h then v :: h :: t else h :: insertKeyAsc v t

/-- Sort group keys ascending (nulls last). -/
def sortKeysAsc (l : List Val) : List Val := l.foldr insertKeyAsc []

/-- One record of the weekly summary: the dict
`{"_order_week", "total_orders", "_is_delivered", "_is_ndr", "_is_rto",
"_order_value"}` produced per group (`_status` is aggregated by `size` and
renamed `total_orders`). -/
structure WeeklyAgg where
  order_week : Val
  total_orders : Nat
  delivered_sum : Nat
  ndr_sum : Nat
  rto_sum : Nat
  order_value_sum : ℚ
deriving Repr

/-- `compute_weekly_summary_pd`: `groupby("_order_week", dropna=False)`
(keys sorted ascending, the null group kept and placed last) aggregating
group size, the boolean sums of `_is_delivered`/`_is_ndr`/`_is_rto`
(pandas `sum` counts `True` and skips nulls) and the null-skipping sum of
`_order_value`.  An empty frame yields `[]`. -/
def compute_weekly_summary_pd (F : PlFrame) : List WeeklyAgg :=
  (sortKeysAsc (distinctKeys F.rows "_order_week")).map (fun v =>
    let grp := F.rows.filter (fun r => rowGet r "_order_week" = v)
    ⟨v, grp.length,
     (grp.filter (fun r => isTrueCell (rowGet r "_is_delivered"))).length,
     (grp.filter (fun r => isTrueCell (rowGet r "_is_ndr"))).length,
     (grp.filter (fun r => isTrueCell (rowGet r "_is_rto"))).length,
     (grp.map (fun r => numOrZero (rowGet r "_order_value"))).sum⟩)

/-- The per-aggregate try/except loop of `compute_all_analytics`: each named
aggregate either contributes its (JSON-cleaned) result to the results map or
its exception text to the errors map, independently of the others. -/
def compute_all_analytics {α : Type} (analyticsMap : List (String × (PlFrame → Except String α)))
    (F : PlFrame) : List (String × α) × List (String × String) :=
  analyticsMap.foldl
    (fun acc nf =>
      match nf.2 F with
      | .ok r => (acc.1 ++ [(nf.1, r)], acc.2)
      | .error e => (acc.1, acc.2 ++ [(nf.1, e)]))
    ([], [])

/-- First value bound to a key in an association list (reading a Python dict
entry of the report bundle). -/
def lookupAssoc {α : Type} : List (String × α) → String → Option α
  | [], _ => none
  | (k, v) :: r, s => if k = s then some v else lookupAssoc r s

/-! ### Spec-side definitions (for refinement claims only) -/

/-- Modelled from the spec: the order-week bucket of a day of month, per the
fixed ranges [1–7], [8–14], [15–21], [22–28], [29–end-of-month], written as
an arithmetic formula rather than the source's if-chain. -/
def specWeekBucket (y : Int) (m day : Nat) : Nat × Nat :=
  if day ≤ 28 then (7 * ((day - 1) / 7) + 1, 7 * ((day - 1) / 7) + 7)
  else (29, lastDayOfMonth y m)

/-- Modelled from the spec: the `"YYYY-MM-DD-DD"` label for the fixed
day-of-month bucket containing the date's day. -/
def spec_order_week (t : DT) : String :=
  let b := specWeekBucket t.year t.month t.day
  toString t.year ++ "-" ++ z2 t.month ++ "-" ++ z2 b.1 ++ "-" ++ z2 b.2

/-! ### Concrete fixtures used by the claim evaluations -/

/-- A fixed `processed_at` stamp (the pipeline takes the wall clock; any
fixed instant serves the deterministic embedding). -/
def now0 : DT := ⟨2025, 6, 1, 0, 0, 0⟩

/-- The raw input row of spec example scenario 2:
`{"Status": "", "Latest NDR Date": "2025-02-03"}`. -/
def scenario2Frame : PdFrame :=
  ⟨1, [("Status", [.str ""]), ("Latest NDR Date", [.str "2025-02-03"])]⟩

/-- A raw one-row table with an empty status and no channel column. -/
def c9Frame : PdFrame := ⟨1, [("Status", [.str ""])]⟩

/-- A minimal raw one-row table (a lone status column). -/
def c8Frame : PdFrame := ⟨1, [("status", [.str "DELIVERED"])]⟩

/-- The filter spec `{"paymentMethod": "COD"}`. -/
def codOnlyFilters : FilterSpec :=
  ⟨none, none, .absent, .one "COD", .absent, .absent, .absent, .absent, .absent, .absent⟩

/-- Two raw rows whose payment fields are `"Cash on Delivery"` and
`"Prepaid Online"` (spec example scenario 4). -/
def c2Frame : PlFrame :=
  ⟨["payment_method"],
   [[("payment_method", .str "Cash on Delivery")],
    [("payment_method", .str "Prepaid Online")]]⟩

/-- One raw row whose pickup precedes its order placement by one day. -/
def c3Frame : PlFrame :=
  ⟨["order_date", "order_picked_up_date"],
   [[("order_date", .str "2025-01-02"), ("order_picked_up_date", .str "2025-01-01")]]⟩

/-- One raw row ordered on 2025-03-05. -/
def c4Frame : PlFrame :=
  ⟨["order_date"], [[("order_date", .str "2025-03-05")]]⟩

/-- A one-row normalized frame for aggregate witnesses. -/
def c5Frame : PlFrame :=
  ⟨["_state", "_courier", "_is_delivered", "_is_ndr", "_is_rto", "_order_value"],
   [[("_state", .str "MH"), ("_courier", .str "XP"), ("_is_delivered", .bool true),
     ("_is_ndr", .bool false), ("_is_rto", .bool false), ("_order_value", .num 100)]]⟩

/-- An empty frame. -/
def emptyPlFrame : PlFrame := ⟨[], []⟩

/-- A two-aggregate analytics map with one failing and one succeeding
aggregate, for the orchestrator witness. -/
def c6AggsW : List (String × (PlFrame → Except String Nat)) :=
  [("a", fun _ => .error "boom"), ("b", fun _ => .ok 1)]

/-! ## Theorems

First the association-list and schema infrastructure, then one theorem per
claim (with witnesses and counterexamples). -/

theorem rowGet_rowSet_self (r : Row) (k : String) (v : Val) :
    rowGet (rowSet r k v) k = v := by
  induction r with
  | nil => simp [rowSet, rowGet]
  | cons kv t ih =>
      by_cases h : kv.1 = k
      · simp [rowSet, rowGet, h]
      · simp [rowSet, rowGet, h, ih]

theorem rowGet_rowSet_ne (r : Row) (k k2 : String) (v : Val) (h : k ≠ k2) :
    rowGet (rowSet r k v) k2 = rowGet r k2 := by
  induction r with
  | nil => simp [rowSet, rowGet, h]
  | cons kv t ih =>
      by_cases hk : kv.1 = k
      · simp [rowSet, rowGet, hk, h]
      · simp [rowSet, rowGet, hk, ih]

theorem rowSet_eq_self (r : Row) (k : String) (v : Val)
    (hh : rowHas r k = true) (hv : rowGet r k = v) : rowSet r k v = r := by
  induction r with
  | nil => simp [rowHas] at hh
  | cons kv t ih =>
      by_cases hk : kv.1 = k
      · obtain ⟨k0, v0⟩ := kv
        simp only at hk
        subst hk
        simp [rowGet] at hv
        simp [rowSet, hv]
      · have hh2 : rowHas t k = true := by
          simp [rowHas] at hh ⊢
          rcases hh with h1 | h1
          · exact absurd h1 hk
          · exact h1
        have hv2 : rowGet t k = v := by
          simpa [rowGet, hk] using hv
        simp [rowSet, hk, ih hh2 hv2]

theorem rowHas_cons (a : String) (b : Val) (t : Row) (k2 : String) :
    rowHas ((a, b) :: t) k2 = (decide (a = k2) || rowHas t k2) := by
  simp [rowHas]

theorem rowHas_rowSet (r : Row) (k k2 : String) (v : Val) :
    rowHas (rowSet r k v) k2 = (decide (k = k2) || rowHas r k2) := by
  induction r with
  | nil =>
      show rowHas [(k, v)] k2 = _
      rw [rowHas_cons]
  | cons kv t ih =>
      obtain ⟨a, b⟩ := kv
      show rowHas (if a = k then (k, v) :: t else (a, b) :: rowSet t k v) k2 = _
      by_cases hk : a = k
      · rw [if_pos hk, rowHas_cons, rowHas_cons, hk]
        cases h1 : decide (k = k2) <;> simp
      · rw [if_neg hk, rowHas_cons, ih, rowHas_cons]
        cases h1 : decide (a = k2) <;> cases h2 : decide (k = k2) <;> simp

theorem writeCells_nil (r : Row) : writeCells r [] = r := rfl

theorem writeCells_cons (r : Row) (kv : String × Val) (kvs : List (String × Val)) :
    writeCells r (kv :: kvs) = writeCells (rowSet r kv.1 kv.2) kvs := rfl

theorem rowGet_writeCells_not_mem (r : Row) (kvs : List (String × Val)) (k : String)
    (h : k ∉ kvs.map Prod.fst) : rowGet (writeCells r kvs) k = rowGet r k := by
  induction kvs generalizing r with
  | nil => rfl
  | cons kv t ih =>
      simp only [List.map_cons, List.mem_cons] at h
      push_neg at h
      rw [writeCells_cons, ih _ h.2, rowGet_rowSet_ne _ _ _ _ (fun hq => h.1 hq.symm)]

theorem rowGet_writeCells_mem (r : Row) (kvs : List (String × Val)) (k : String) (v : Val)
    (hnd : (kvs.map Prod.fst).Nodup) (h : (k, v) ∈ kvs) :
    rowGet (writeCells r kvs) k = v := by
  induction kvs generalizing r with
  | nil => simp at h
  | cons kv t ih =>
      simp only [List.map_cons, List.nodup_cons] at hnd
      rcases List.mem_cons.mp h with h1 | h1
      · have hk : kv.1 = k := by rw [← h1]
        have hnotin : k ∉ t.map Prod.fst := by rw [← hk]; exact hnd.1
        rw [writeCells_cons, rowGet_writeCells_not_mem _ _ _ hnotin, hk,
          rowGet_rowSet_self]
        rw [← h1]
      · exact (writeCells_cons r kv t) ▸ ih (rowSet r kv.1 kv.2) hnd.2 h1

theorem rowHas_writeCells (r : Row) (kvs : List (String × Val)) (k : String) :
    rowHas (writeCells r kvs) k = (decide (k ∈ kvs.map Prod.fst) || rowHas r k) := by
  induction kvs generalizing r with
  | nil => simp [writeCells_nil]
  | cons kv t ih =>
      rw [writeCells_cons, ih, rowHas_rowSet]
      simp only [List.map_cons, List.mem_cons]
      by_cases h2 : kv.1 = k
      · simp [h2]
      · have h3 : ¬ k = kv.1 := fun hq => h2 hq.symm
        by_cases h1 : k ∈ t.map Prod.fst <;> simp [h1, h2, h3]

theorem writeCells_eq_self (r : Row) (kvs : List (String × Val))
    (h : ∀ kv ∈ kvs, rowHas r kv.1 = true ∧ rowGet r kv.1 = kv.2) :
    writeCells r kvs = r := by
  induction kvs with
  | nil => rfl
  | cons kv t ih =>
      have h1 := h kv (List.mem_cons_self kv t)
      rw [writeCells_cons, rowSet_eq_self r kv.1 kv.2 h1.1 h1.2]
      exact ih (fun kv2 hm => h kv2 (List.mem_cons_of_mem kv hm))

theorem mem_addCols (cols ns : List String) (a : String) :
    a ∈ addCols cols ns ↔ a ∈ cols ∨ a ∈ ns := by
  unfold addCols
  rw [List.mem_append, List.mem_filter]
  constructor
  · rintro (h | ⟨h1, _⟩)
    · exact Or.inl h
    · exact Or.inr h1
  · rintro (h | h)
    · exact Or.inl h
    · by_cases hc : a ∈ cols
      · exact Or.inl hc
      · exact Or.inr ⟨h, by simpa using hc⟩

theorem addCols_eq_self (cols ns : List String) (h : ∀ n ∈ ns, n ∈ cols) :
    addCols cols ns = cols := by
  unfold addCols
  rw [List.filter_eq_nil_iff.mpr, List.append_nil]
  intro a ha
  simpa using h a ha

theorem addCols_addCols (cols ns : List String) :
    addCols (addCols cols ns) ns = addCols cols ns :=
  addCols_eq_self _ _ (fun n hn => (mem_addCols cols ns n).mpr (Or.inr hn))

theorem resolve_column_mem (cols keys : List String) (c : String)
    (h : resolve_column cols keys = some c) : c ∈ keys := by
  induction keys with
  | nil => simp [resolve_column] at h
  | cons k t ih =>
      by_cases hk : k ∈ cols
      · simp [resolve_column, hk] at h
        exact List.mem_cons.mpr (Or.inl h.symm)
      · simp only [resolve_column, if_neg hk] at h
        exact List.mem_cons_of_mem k (ih h)

theorem resolve_column_congr (cols cols2 keys : List String)
    (h : ∀ a ∈ keys, (a ∈ cols2 ↔ a ∈ cols)) :
    resolve_column cols2 keys = resolve_column cols keys := by
  induction keys with
  | nil => rfl
  | cons k t ih =>
      have hk := h k (List.mem_cons_self k t)
      by_cases h1 : k ∈ cols
      · simp [resolve_column, h1, hk.mpr h1]
      · have h2 : k ∉ cols2 := fun hc => h1 (hk.mp hc)
        simp only [resolve_column, if_neg h1, if_neg h2]
        exact ih (fun a ha => h a (List.mem_cons_of_mem k ha))

/-! #### Idempotence of the Polars normalization -/

theorem plDerived1_map_fst (p : PlParams) (r : Row) :
    (plDerived1 p r).map Prod.fst = plNames1 := rfl

theorem plDerived2_map_fst (r : Row) : (plDerived2 r).map Prod.fst = plNames2 := rfl

theorem plDerived3_map_fst (p : PlParams) (r : Row) :
    (plDerived3 p r).map Prod.fst = plNames3 := rfl

theorem plNames1_nodup : plNames1.Nodup := by decide

theorem plNames2_nodup : plNames2.Nodup := by decide

theorem plNames3_nodup : plNames3.Nodup := by decide

theorem plNames_disj12 : ∀ x ∈ plNames1, x ∉ plNames2 := by decide

theorem plNames_disj13 : ∀ x ∈ plNames1, x ∉ plNames3 := by decide

theorem plNames_disj23 : ∀ x ∈ plNames2, x ∉ plNames3 := by decide

theorem mem_plDerivedNames (k : String) :
    k ∈ plDerivedNames ↔ k ∈ plNames1 ∨ k ∈ plNames2 ∨ k ∈ plNames3 := by
  simp [plDerivedNames]

theorem rowGet_nrow_stage2 (p : PlParams) (r : Row) (k : String) (h3 : k ∉ plNames3) :
    rowGet (normalize_row_pl p r) k = rowGet (plStage2 p r) k := by
  unfold normalize_row_pl
  exact rowGet_writeCells_not_mem _ _ _ (by rw [plDerived3_map_fst]; exact h3)

theorem rowGet_nrow_stage1 (p : PlParams) (r : Row) (k : String)
    (h2 : k ∉ plNames2) (h3 : k ∉ plNames3) :
    rowGet (normalize_row_pl p r) k = rowGet (plStage1 p r) k := by
  rw [rowGet_nrow_stage2 p r k h3]
  unfold plStage2
  exact rowGet_writeCells_not_mem _ _ _ (by rw [plDerived2_map_fst]; exact h2)

theorem rowGet_nrow_src (p : PlParams) (r : Row) (k : String)
    (h1 : k ∉ plNames1) (h2 : k ∉ plNames2) (h3 : k ∉ plNames3) :
    rowGet (normalize_row_pl p r) k = rowGet r k := by
  rw [rowGet_nrow_stage1 p r k h2 h3]
  unfold plStage1
  exact rowGet_writeCells_not_mem _ _ _ (by rw [plDerived1_map_fst]; exact h1)

theorem rowGet_nrow_d1 (p : PlParams) (r : Row) (k : String) (v : Val)
    (h : (k, v) ∈ plDerived1 p r) : rowGet (normalize_row_pl p r) k = v := by
  have hk : k ∈ plNames1 := by
    have hm := List.mem_map_of_mem Prod.fst h
    rwa [plDerived1_map_fst] at hm
  rw [rowGet_nrow_stage1 p r k (plNames_disj12 k hk) (plNames_disj13 k hk)]
  unfold plStage1
  exact rowGet_writeCells_mem _ _ _ _ (by rw [plDerived1_map_fst]; exact plNames1_nodup) h

theorem rowGet_nrow_d2 (p : PlParams) (r : Row) (k : String) (v : Val)
    (h : (k, v) ∈ plDerived2 (plStage1 p r)) : rowGet (normalize_row_pl p r) k = v := by
  have hk : k ∈ plNames2 := by
    have hm := List.mem_map_of_mem Prod.fst h
    rwa [plDerived2_map_fst] at hm
  rw [rowGet_nrow_stage2 p r k (plNames_disj23 k hk)]
  unfold plStage2
  exact rowGet_writeCells_mem _ _ _ _ (by rw [plDerived2_map_fst]; exact plNames2_nodup) h

theorem rowGet_nrow_d3 (p : PlParams) (r : Row) (k : String) (v : Val)
    (h : (k, v) ∈ plDerived3 p (plStage2 p r)) : rowGet (normalize_row_pl p r) k = v := by
  unfold normalize_row_pl
  exact rowGet_writeCells_mem _ _ _ _ (by rw [plDerived3_map_fst]; exact plNames3_nodup) h

theorem rowHas_nrow (p : PlParams) (r : Row) (k : String) (h : k ∈ plDerivedNames) :
    rowHas (normalize_row_pl p r) k = true := by
  unfold normalize_row_pl plStage2 plStage1
  rw [rowHas_writeCells, rowHas_writeCells, rowHas_writeCells,
    plDerived1_map_fst, plDerived2_map_fst, plDerived3_map_fst]
  rcases (mem_plDerivedNames k).mp h with h1 | h1 | h1 <;> simp [h1]

theorem colCell_congr (dflt : Val) (g : Val → Val) (oc : Option String) (r r2 : Row)
    (h : ∀ c, oc = some c → rowGet r2 c = rowGet r c) :
    colCell dflt g oc r2 = colCell dflt g oc r := by
  cases oc with
  | none => rfl
  | some c => simp [colCell, h c rfl]

theorem plDerived1_stable (p : PlParams) (r : Row) (hp : paramsSafe p) :
    plDerived1 p (normalize_row_pl p r) = plDerived1 p r := by
  obtain ⟨h1, h2, h3, h4, h5, h6, h7, h8, h9, h10, h11⟩ := hp
  have key : ∀ (oc : Option String), srcSafe oc → ∀ (dflt : Val) (g : Val → Val),
      colCell dflt g oc (normalize_row_pl p r) = colCell dflt g oc r := by
    intro oc hs dflt g
    apply colCell_congr
    intro c hc
    obtain ⟨n1, n2, n3⟩ := hs c hc
    exact rowGet_nrow_src p r c n1 n2 n3
  unfold plDerived1
  rw [key _ h1, key _ h2, key _ h3, key _ h4, key _ h5, key _ h6, key _ h7,
    key _ h8, key _ h9, key _ h10, key _ h11]

theorem tatCellPl_congr (a b : String) (r r2 : Row)
    (ha : rowGet r2 a = rowGet r a) (hb : rowGet r2 b = rowGet r b) :
    tatCellPl a b r2 = tatCellPl a b r := by
  simp [tatCellPl, ha, hb]

theorem tatCellPlFill0_congr (a b : String) (r r2 : Row)
    (ha : rowGet r2 a = rowGet r a) (hb : rowGet r2 b = rowGet r b) :
    tatCellPlFill0 a b r2 = tatCellPlFill0 a b r := by
  simp [tatCellPlFill0, ha, hb]

theorem plDerived2_stable (p : PlParams) (r : Row) :
    plDerived2 (normalize_row_pl p r) = plDerived2 (plStage1 p r) := by
  have h : ∀ k, k ∈ plNames1 →
      rowGet (normalize_row_pl p r) k = rowGet (plStage1 p r) k := fun k hk =>
    rowGet_nrow_stage1 p r k (plNames_disj12 k hk) (plNames_disj13 k hk)
  unfold plDerived2
  rw [tatCellPl_congr _ _ _ _ (h "_pickup_date" (by decide)) (h "_order_date" (by decide)),
    tatCellPlFill0_congr _ _ _ _ (h "_approval_date" (by decide)) (h "_order_date" (by decide)),
    tatCellPl_congr _ _ _ _ (h "_awb_date" (by decide)) (h "_approval_date" (by decide)),
    tatCellPl_congr _ _ _ _ (h "_pickup_date" (by decide)) (h "_awb_date" (by decide)),
    tatCellPl_congr _ _ _ _ (h "_ofd_date" (by decide)) (h "_pickup_date" (by decide)),
    tatCellPl_congr _ _ _ _ (h "_ofd_date" (by decide)) (h "_order_date" (by decide))]

theorem weekCellPl_congr (r r2 : Row)
    (h : rowGet r2 "_order_date" = rowGet r "_order_date") :
    weekCellPl r2 = weekCellPl r := by
  simp [weekCellPl, h]

theorem cancelCellPl_congr (hc : Bool) (r r2 : Row)
    (h1 : rowGet r2 "cancelled_flag" = rowGet r "cancelled_flag")
    (h2 : rowGet r2 "_status" = rowGet r "_status") :
    cancelCellPl hc r2 = cancelCellPl hc r := by
  cases hc <;> simp [cancelCellPl, h1, h2]

theorem delCellPl_congr (r r2 : Row)
    (h : rowGet r2 "_status" = rowGet r "_status") : delCellPl r2 = delCellPl r := by
  simp [delCellPl, h]

theorem rtoCellPl_congr (r r2 : Row)
    (h : rowGet r2 "_status" = rowGet r "_status") : rtoCellPl r2 = rtoCellPl r := by
  simp [rtoCellPl, h]

theorem ndrCellPl_congr (hn : Bool) (r r2 : Row)
    (h : rowGet r2 "ndr_flag" = rowGet r "ndr_flag") :
    ndrCellPl hn r2 = ndrCellPl hn r := by
  cases hn <;> simp [ndrCellPl, h]

theorem plDerived3_stable (p : PlParams) (r : Row) :
    plDerived3 p (normalize_row_pl p r) = plDerived3 p (plStage2 p r) := by
  have h : ∀ k : String, k ∉ plNames3 →
      rowGet (normalize_row_pl p r) k = rowGet (plStage2 p r) k := fun k hk =>
    rowGet_nrow_stage2 p r k hk
  unfold plDerived3
  rw [weekCellPl_congr _ _ (h "_order_date" (by decide)),
    cancelCellPl_congr _ _ _ (h "cancelled_flag" (by decide)) (h "_status" (by decide)),
    delCellPl_congr _ _ (h "_status" (by decide)),
    rtoCellPl_congr _ _ (h "_status" (by decide)),
    ndrCellPl_congr _ _ _ (h "ndr_flag" (by decide))]

theorem normalize_row_pl_idem (p : PlParams) (hp : paramsSafe p) (r : Row) :
    normalize_row_pl p (normalize_row_pl p r) = normalize_row_pl p r := by
  have hS1 : plStage1 p (normalize_row_pl p r) = normalize_row_pl p r := by
    unfold plStage1
    rw [plDerived1_stable p r hp]
    apply writeCells_eq_self
    intro kv hkv
    have hk : kv.1 ∈ plNames1 := by
      have hm := List.mem_map_of_mem Prod.fst hkv
      rwa [plDerived1_map_fst] at hm
    refine ⟨rowHas_nrow p r kv.1 ((mem_plDerivedNames kv.1).mpr (Or.inl hk)), ?_⟩
    exact rowGet_nrow_d1 p r kv.1 kv.2 (by simpa using hkv)
  have hS2 : plStage2 p (normalize_row_pl p r) = normalize_row_pl p r := by
    unfold plStage2
    rw [hS1, plDerived2_stable p r]
    apply writeCells_eq_self
    intro kv hkv
    have hk : kv.1 ∈ plNames2 := by
      have hm := List.mem_map_of_mem Prod.fst hkv
      rwa [plDerived2_map_fst] at hm
    refine ⟨rowHas_nrow p r kv.1 ((mem_plDerivedNames kv.1).mpr (Or.inr (Or.inl hk))), ?_⟩
    exact rowGet_nrow_d2 p r kv.1 kv.2 (by simpa using hkv)
  show writeCells (plStage2 p (normalize_row_pl p r))
      (plDerived3 p (plStage2 p (normalize_row_pl p r))) = normalize_row_pl p r
  rw [hS2, plDerived3_stable p r]
  apply writeCells_eq_self
  intro kv hkv
  have hk : kv.1 ∈ plNames3 := by
    have hm := List.mem_map_of_mem Prod.fst hkv
    rwa [plDerived3_map_fst] at hm
  refine ⟨rowHas_nrow p r kv.1 ((mem_plDerivedNames kv.1).mpr (Or.inr (Or.inr hk))), ?_⟩
  exact rowGet_nrow_d3 p r kv.1 kv.2 (by simpa using hkv)

theorem srcSafe_resolve (cols keys : List String)
    (hk : ∀ a ∈ keys, a ∉ plNames1 ∧ a ∉ plNames2 ∧ a ∉ plNames3) :
    srcSafe (resolve_column cols keys) :=
  fun c hc => hk c (resolve_column_mem cols keys c hc)

theorem paramsSafe_plParamsOf (cols : List String) : paramsSafe (plParamsOf cols) :=
  ⟨srcSafe_resolve _ _ (by decide), srcSafe_resolve _ _ (by decide),
   srcSafe_resolve _ _ (by decide), srcSafe_resolve _ _ (by decide),
   srcSafe_resolve _ _ (by decide), srcSafe_resolve _ _ (by decide),
   srcSafe_resolve _ _ (by decide), srcSafe_resolve _ _ (by decide),
   srcSafe_resolve _ _ (by decide), srcSafe_resolve _ _ (by decide),
   srcSafe_resolve _ _ (by decide)⟩

theorem mem_addCols_plDerived (cols : List String) (a : String) (h : a ∉ plDerivedNames) :
    (a ∈ addCols cols plDerivedNames) ↔ a ∈ cols := by
  rw [mem_addCols]
  exact ⟨fun hc => hc.resolve_right (fun hx => absurd hx h), Or.inl⟩

theorem resolve_addCols_plDerived (cols keys : List String)
    (h : ∀ a ∈ keys, a ∉ plDerivedNames) :
    resolve_column (addCols cols plDerivedNames) keys = resolve_column cols keys :=
  resolve_column_congr _ _ _ (fun a ha => mem_addCols_plDerived cols a (h a ha))

theorem plParamsOf_addCols (cols : List String) :
    plParamsOf (addCols cols plDerivedNames) = plParamsOf cols := by
  unfold plParamsOf
  simp only [PlParams.mk.injEq]
  refine ⟨resolve_addCols_plDerived _ _ (by decide), resolve_addCols_plDerived _ _ (by decide),
    resolve_addCols_plDerived _ _ (by decide), resolve_addCols_plDerived _ _ (by decide),
    resolve_addCols_plDerived _ _ (by decide), resolve_addCols_plDerived _ _ (by decide),
    resolve_addCols_plDerived _ _ (by decide), resolve_addCols_plDerived _ _ (by decide),
    resolve_addCols_plDerived _ _ (by decide), resolve_addCols_plDerived _ _ (by decide),
    resolve_addCols_plDerived _ _ (by decide), ?_, ?_⟩
  · exact decide_eq_decide.mpr (mem_addCols_plDerived cols "cancelled_flag" (by decide))
  · exact decide_eq_decide.mpr (mem_addCols_plDerived cols "ndr_flag" (by decide))

/-! #### Claim C8 -/

theorem normalize_dataframe_pl_cols (F : PlFrame) :
    (normalize_dataframe_pl F).cols = addCols F.cols plDerivedNames := rfl

theorem normalize_dataframe_pl_rows (F : PlFrame) :
    (normalize_dataframe_pl F).rows = F.rows.map (normalize_row_pl (plParamsOf F.cols)) := rfl

theorem plFrame_ext (F G : PlFrame) (h1 : F.cols = G.cols) (h2 : F.rows = G.rows) :
    F = G := by
  cases F; cases G; simp_all

/-- Claim C8 (amended): the compute-time Polars normalization is idempotent
— re-running `normalize_dataframe_pl` on an already-normalized frame
recomputes every derived column to the same value and leaves the schema
unchanged — and the orchestrator's normalize-once step skips a frame whose
canonical `_status` column is already present.  (The pandas ingestion
preprocessing is not idempotent; see the counterexample.) -/
theorem c8_polars_normalize_idempotent (F : PlFrame) :
    normalize_dataframe_pl (normalize_dataframe_pl F) = normalize_dataframe_pl F
      ∧ normalize_once_pl (normalize_dataframe_pl F) = normalize_dataframe_pl F := by
  constructor
  · apply plFrame_ext
    · simp only [normalize_dataframe_pl_cols]
      exact addCols_addCols _ _
    · rw [normalize_dataframe_pl_rows (normalize_dataframe_pl F),
        normalize_dataframe_pl_rows F, normalize_dataframe_pl_cols F,
        plParamsOf_addCols F.cols, List.map_map]
      apply List.map_congr_left
      intro r _
      rw [Function.comp_apply]
      exact normalize_row_pl_idem _ (paramsSafe_plParamsOf F.cols) r
  · unfold normalize_once_pl
    rw [if_pos]
    rw [normalize_dataframe_pl_cols]
    exact (mem_addCols _ _ _).mpr (Or.inr (by decide))

set_option maxRecDepth 20000 in
/-- Claim C8 (counterexample): re-running the pandas ingestion preprocessing
is not a no-op — the second run concat-appends duplicate derived columns
(here a second `category` column), so its output differs from the first
run's. -/
theorem c8_preprocess_not_idempotent :
    preprocess_shipping_data now0 (preprocess_shipping_data now0 c8Frame)
        ≠ preprocess_shipping_data now0 c8Frame
      ∧ ((preprocess_shipping_data now0 (preprocess_shipping_data now0 c8Frame)).cols.map
          Prod.fst).count "category" = 2
      ∧ ((preprocess_shipping_data now0 c8Frame).cols.map Prod.fst).count "category" = 1 := by
  have h2 : ((preprocess_shipping_data now0 (preprocess_shipping_data now0 c8Frame)).cols.map
      Prod.fst).count "category" = 2 := by decide
  have h1 : ((preprocess_shipping_data now0 c8Frame).cols.map Prod.fst).count "category" = 1 := by
    decide
  refine ⟨fun h => ?_, h2, h1⟩
  rw [h, h1] at h2
  exact absurd h2 (by decide)

/-! #### Claim C7 -/

theorem stepCanonical_length_le (col : String) (upCol upVal : Bool) (fv : FilterVal)
    (rows : List Row) : (stepCanonical col upCol upVal fv rows).length ≤ rows.length := by
  unfold stepCanonical
  split
  · cases fv
    · exact le_refl _
    · exact List.length_filter_le _ _
    · exact List.length_filter_le _ _
  · exact le_refl _

theorem stepResolved_length_le (aliases cols : List String) (fv : FilterVal)
    (rows : List Row) : (stepResolved aliases cols fv rows).length ≤ rows.length := by
  unfold stepResolved
  split
  · cases resolve_column cols aliases
    · exact le_refl _
    · cases fv
      · exact le_refl _
      · exact List.length_filter_le _ _
      · exact List.length_filter_le _ _
  · exact le_refl _

theorem stepDate_length_le (bound : Option DT) (isStart : Bool) (rows : List Row) :
    (stepDate bound isStart rows).length ≤ rows.length := by
  unfold stepDate
  cases bound
  · exact le_refl _
  · exact List.length_filter_le _ _

/-- Claim C7 (confirmed): the filter engine only narrows — for every
normalized frame and every filter spec, the filtered row count is at most
the input row count. -/
theorem c7_filter_monotone (filters : FilterSpec) (F : PlFrame) :
    (filter_shipping_data_pl filters F).rows.length ≤ F.rows.length := by
  unfold filter_shipping_data_pl
  refine le_trans (stepCanonical_length_le _ _ _ _ _) ?_
  refine le_trans (stepResolved_length_le _ _ _ _) ?_
  refine le_trans (stepResolved_length_le _ _ _ _) ?_
  refine le_trans (stepCanonical_length_le _ _ _ _ _) ?_
  refine le_trans (stepCanonical_length_le _ _ _ _ _) ?_
  refine le_trans (stepResolved_length_le _ _ _ _) ?_
  refine le_trans (stepCanonical_length_le _ _ _ _ _) ?_
  refine le_trans (?_ : _ ≤ (stepDate filters.endDate false
    (stepDate filters.startDate true F.rows)).length) ?_
  · cases hos : filters.orderStatus
    · exact stepCanonical_length_le _ _ _ _ _
    · exact stepCanonical_length_le _ _ _ _ _
    · exact stepCanonical_length_le _ _ _ _ _
  refine le_trans (stepDate_length_le _ _ _) ?_
  exact stepDate_length_le _ _ _

/-! #### Claim C6 -/

theorem compute_all_analytics_aux {α : Type}
    (aggs : List (String × (PlFrame → Except String α))) (F : PlFrame)
    (acc : List (String × α) × List (String × String)) :
    aggs.foldl
        (fun acc nf =>
          match nf.2 F with
          | .ok r => (acc.1 ++ [(nf.1, r)], acc.2)
          | .error e => (acc.1, acc.2 ++ [(nf.1, e)]))
        acc =
      (acc.1 ++ aggs.filterMap (fun nf =>
          match nf.2 F with
          | .ok r => some (nf.1, r)
          | .error _ => none),
       acc.2 ++ aggs.filterMap (fun nf =>
          match nf.2 F with
          | .error e => some (nf.1, e)
          | .ok _ => none)) := by
  induction aggs generalizing acc with
  | nil => simp
  | cons nf t ih =>
      cases hr : nf.2 F with
      | ok r => simp [List.foldl_cons, hr, ih, List.filterMap_cons]
      | error e => simp [List.foldl_cons, hr, ih, List.filterMap_cons]

theorem compute_all_analytics_spec {α : Type}
    (aggs : List (String × (PlFrame → Except String α))) (F : PlFrame) :
    compute_all_analytics aggs F =
      (aggs.filterMap (fun nf =>
          match nf.2 F with
          | .ok r => some (nf.1, r)
          | .error _ => none),
       aggs.filterMap (fun nf =>
          match nf.2 F with
          | .error e => some (nf.1, e)
          | .ok _ => none)) := by
  unfold compute_all_analytics
  rw [compute_all_analytics_aux]
  simp

/-- Claim C6 (confirmed): in the orchestrator loop, an aggregate that raises
lands in the errors map under its own name, and an aggregate that succeeds
lands in the results map — each aggregate's outcome is recorded regardless
of what the others do. -/
theorem c6_per_aggregate_errors {α : Type}
    (aggs : List (String × (PlFrame → Except String α))) (F : PlFrame)
    (name : String) (f : PlFrame → Except String α) (h : (name, f) ∈ aggs) :
    (∀ e, f F = .error e → (name, e) ∈ (compute_all_analytics aggs F).2)
      ∧ (∀ r, f F = .ok r → (name, r) ∈ (compute_all_analytics aggs F).1) := by
  rw [compute_all_analytics_spec]
  constructor
  · intro e he
    exact List.mem_filterMap.mpr ⟨(name, f), h, by simp [he]⟩
  · intro r hr
    exact List.mem_filterMap.mpr ⟨(name, f), h, by simp [hr]⟩

/-- Claim C6 witness: with one failing and one succeeding aggregate, the
failure is recorded under its name and the sibling result is still
delivered. -/
theorem c6_per_aggregate_errors_witness :
    ("a", "boom") ∈ (compute_all_analytics c6AggsW emptyPlFrame).2
      ∧ ("b", 1) ∈ (compute_all_analytics c6AggsW emptyPlFrame).1 := by
  constructor
  · exact (c6_per_aggregate_errors c6AggsW emptyPlFrame "a" (fun _ => .error "boom")
      (List.mem_cons_self _ _)).1 "boom" rfl
  · exact (c6_per_aggregate_errors c6AggsW emptyPlFrame "b" (fun _ => .ok 1)
      (List.mem_cons_of_mem _ (List.mem_cons_self _ _))).2 1 rfl

/-! #### Claim C1 -/

set_option maxRecDepth 20000 in
/-- Claim C1 (code bug): on spec example scenario 2 — raw input row
`{"Status": "", "Latest NDR Date": "2025-02-03"}` — the pipeline assigns
`delivery_status = ""`, not `"NDR"` as the decision list intends: the empty
status string vacuously substring-matches the first explicit status token
and is returned verbatim, so the NDR-date branch is never reached.  The
`ndr_flag` is `true` as specified. -/
theorem c1_scenario2_evaluation :
    pdGetCol (preprocess_shipping_data now0 scenario2Frame) "delivery_status"
        = some [Val.str ""]
      ∧ pdGetCol (preprocess_shipping_data now0 scenario2Frame) "ndr_flag"
        = some [Val.bool true]
      ∧ ("" : String) ≠ "NDR" := by
  refine ⟨by decide, by decide, by decide⟩

/-! #### Claim C2 -/

set_option maxRecDepth 20000 in
/-- Claim C2 (counterexample): the live Polars payment filter is an exact
match, not the claimed substring rule — filtering the normalized frame whose
two rows carry payments `"Cash on Delivery"` and `"Prepaid Online"` with
`{"paymentMethod": "COD"}` retains nothing, while the claim says the
Cash-on-Delivery row is matched. -/
theorem c2_cod_substring_counterexample :
    (normalize_dataframe_pl c2Frame).rows.length = 2
      ∧ rowGet ((normalize_dataframe_pl c2Frame).rows.headI) "_payment"
        = Val.str "CASH ON DELIVERY"
      ∧ (filter_shipping_data_pl codOnlyFilters (normalize_dataframe_pl c2Frame)).rows
        = [] := by
  refine ⟨by decide, by decide, by decide⟩

/-- Claim C2 (amended): for every normalized frame, the filter spec
`{"paymentMethod": "COD"}` retains exactly the rows whose `_payment` cell
(the trimmed, uppercased source payment string) equals `"COD"`; substring
matches such as `"Cash on Delivery"` are excluded along with
`"Prepaid Online"`. -/
theorem c2_payment_exact_match (F : PlFrame) :
    (filter_shipping_data_pl codOnlyFilters F).rows
        = F.rows.filter (fun r =>
            match strOf (rowGet r "_payment") with
            | some t => decide (t = "COD")
            | none => false)
      ∧ (∀ s : String, stripUpperCellFn (.str s) = .str (sUpper (sTrim s))) := by
  exact ⟨rfl, fun s => rfl⟩

/-! #### Claim C9 -/

set_option maxRecDepth 20000 in
/-- Claim C9 (counterexample): on a one-row table with an empty status and
no channel column, the normalized output has a null `channel` (the fallback
is `None`, not a non-null value) and `delivery_status = ""` rather than
`"PENDING"`, although no status string or date signal resolved. -/
theorem c9_channel_pending_counterexample :
    pdGetCol (preprocess_shipping_data now0 c9Frame) "channel" = some [Val.null]
      ∧ pdGetCol (preprocess_shipping_data now0 c9Frame) "delivery_status"
        = some [Val.str ""]
      ∧ ("" : String) ≠ "PENDING" := by
  refine ⟨by decide, by decide, by decide⟩

/-- Claim C9 (amended): the `category` cleanup leaves no null and defaults
null markers to `Uncategorized`; and `get_delivery_status` does return
`"PENDING"` when the raw status is the `N/A` marker and no date signal is
present (the empty raw status instead short-circuits to `""`, and the
channel fallback is null — see the counterexample). -/
theorem c9_category_status_fallbacks :
    (∀ v : Val, cleanCategoryCell v ≠ Val.null
        ∧ (v = Val.null → cleanCategoryCell v = Val.str "Uncategorized"))
      ∧ (∀ row : Row, rowGet row "status" = Val.str "N/A" →
          rowGet row "order_delivered_date" = Val.null →
          rowGet row "delivery_date" = Val.null →
          rowGet row "delivered_date" = Val.null →
          rowGet row "latest_n_d_r__date" = Val.null →
          rowGet row "ndr_date" = Val.null →
          rowGet row "r_t_o__initiated__date" = Val.null →
          rowGet row "rto_date" = Val.null →
          rowGet row "first_out_for_delivery_date" = Val.null →
          rowGet row "latest_o_f_d__date" = Val.null →
          rowGet row "r_t_o__delivered__date" = Val.null →
          rowGet row "rto_delivered_date" = Val.null →
          get_delivery_status row = "PENDING") := by
  constructor
  · intro v
    constructor
    · cases v with
      | str s => simp only [cleanCategoryCell]; split <;> simp
      | null => simp [cleanCategoryCell]
      | num q => simp [cleanCategoryCell]
      | bool b => simp [cleanCategoryCell]
      | dt t => simp [cleanCategoryCell]
    · intro h
      subst h
      rfl
  · intro row h1 h2 h3 h4 h5 h6 h7 h8 h9 h10 h11 h12
    unfold get_delivery_status
    rw [h1, h2, h3, h4, h5, h6, h7, h8, h9, h10, h11, h12]
    have hY : pyOrV (Val.str "N/A")
        (pyOrV (rowGet row "original_status")
          (pyOrV (rowGet row "delivery_status")
            (pyOrV (rowGet row "current_status") (Val.str "")))) = Val.str "N/A" := rfl
    rw [hY]
    decide

/-- Claim C9 witness: a concrete null category cell defaults to
`Uncategorized`, and a concrete `N/A`-status row with no signals is
`PENDING`. -/
theorem c9_category_status_fallbacks_witness :
    cleanCategoryCell Val.null = Val.str "Uncategorized"
      ∧ get_delivery_status [("status", Val.str "N/A")] = "PENDING" := by
  constructor
  · exact (c9_category_status_fallbacks.1 Val.null).2 rfl
  · exact c9_category_status_fallbacks.2 [("status", Val.str "N/A")]
      rfl rfl rfl rfl rfl rfl rfl rfl rfl rfl rfl rfl

/-! #### Claim C3 -/

set_option maxRecDepth 20000 in
/-- Claim C3 (counterexample): in the Polars normalization, a row whose
pickup precedes its order placement gets `tat_order_to_pickup = -1` — a
negative value (the claim requires null), and measured in days rather than
hours (the hour value of the same difference would be `-24`). -/
theorem c3_polars_tat_counterexample :
    ∃ q : ℚ, rowGet ((normalize_dataframe_pl c3Frame).rows.headI) "tat_order_to_pickup"
        = Val.num q ∧ q < 0 ∧ q ≠ -24 := by
  refine ⟨((epochSecs ⟨2025, 1, 1, 0, 0, 0⟩ - epochSecs ⟨2025, 1, 2, 0, 0, 0⟩ : Int) : ℚ)
      / 3600 / 24, rfl, ?_, ?_⟩
  · have h : (epochSecs ⟨2025, 1, 1, 0, 0, 0⟩ - epochSecs ⟨2025, 1, 2, 0, 0, 0⟩ : Int)
        = -86400 := by decide
    rw [h]
    norm_num
  · have h : (epochSecs ⟨2025, 1, 1, 0, 0, 0⟩ - epochSecs ⟨2025, 1, 2, 0, 0, 0⟩ : Int)
        = -86400 := by decide
    rw [h]
    norm_num

/-- Claim C3 (amended): the pandas-path `calculate_tat` (used for the four
canonical duration fields) does satisfy the claim — it yields the difference
in hours, only when both endpoints are present, never a negative value (a
negative difference yields null).  The Polars-path `tat_*` columns are in
days and keep negatives (see the counterexample). -/
theorem c3_calculate_tat_hours :
    (∀ (s e : Option DT) (h : ℚ), calculate_tat s e = some h →
        0 ≤ h ∧ ∃ a b, s = some a ∧ e = some b
          ∧ h = ((epochSecs b - epochSecs a : Int) : ℚ) / 3600)
      ∧ (∀ a b : DT, ((epochSecs b - epochSecs a : Int) : ℚ) < 0 →
          calculate_tat (some a) (some b) = none)
      ∧ (∀ e, calculate_tat none e = none)
      ∧ (∀ s, calculate_tat s none = none) := by
  refine ⟨?_, ?_, fun e => rfl, fun s => ?_⟩
  · intro s e h hc
    match s, e with
    | some a, some b =>
        simp only [calculate_tat] at hc
        by_cases hd : (0 : ℚ) ≤ ((epochSecs b - epochSecs a : Int) : ℚ) / 3600
        · rw [if_pos hd] at hc
          obtain rfl : ((epochSecs b - epochSecs a : Int) : ℚ) / 3600 = h :=
            Option.some.inj hc
          exact ⟨hd, a, b, rfl, rfl, rfl⟩
        · rw [if_neg hd] at hc
          exact absurd hc (by simp)
    | none, _ => exact absurd hc (by simp [calculate_tat])
    | some _, none => exact absurd hc (by simp [calculate_tat])
  · intro a b hneg
    simp only [calculate_tat]
    rw [if_neg]
    rw [not_le]
    exact div_neg_of_neg_of_pos hneg (by norm_num)
  · cases s <;> rfl

/-- Claim C3 witness: a one-day span yields 24 hours, non-negative. -/
theorem c3_calculate_tat_hours_witness :
    ∃ h : ℚ, calculate_tat (some ⟨2025, 1, 1, 0, 0, 0⟩) (some ⟨2025, 1, 2, 0, 0, 0⟩)
        = some h ∧ 0 ≤ h := by
  have hc : calculate_tat (some ⟨2025, 1, 1, 0, 0, 0⟩) (some ⟨2025, 1, 2, 0, 0, 0⟩)
      = some 24 := by
    norm_num [calculate_tat, epochSecs, civilToDays]
  exact ⟨24, hc, (c3_calculate_tat_hours.1 _ _ 24 hc).1⟩

/-! #### Claim C4 -/

set_option maxRecDepth 20000 in
/-- Claim C4 (counterexample): the Polars `_order_week` of a row ordered on
2025-03-05 is the ISO week number string `"10"`, not the day-of-month bucket
label `"2025-03-01-07"` that the pandas `get_order_week` produces for the
same date. -/
theorem c4_polars_week_counterexample :
    rowGet ((normalize_dataframe_pl c4Frame).rows.headI) "_order_week" = Val.str "10"
      ∧ ("10" : String) ≠ "2025-03-01-07"
      ∧ get_order_week (some ⟨2025, 3, 5, 0, 0, 0⟩) = some "2025-03-01-07" := by
  refine ⟨by decide, by decide, by decide⟩

theorem lastDay_inline_eq (y : Int) (m : Nat) :
    (if m = 12 then 31
     else if m = 4 ∨ m = 6 ∨ m = 9 ∨ m = 11 then 30
     else if m = 2 then (if isLeapYear y then 29 else 28)
     else 31) = lastDayOfMonth y m := by
  unfold lastDayOfMonth
  split_ifs <;> first | rfl | omega

/-- Claim C4 (amended): the pandas `get_order_week` does realize the spec's
fixed day-of-month bucketing — null maps to null, and any date with a
positive day maps to the `"YYYY-MM-DD-DD"` label of the bucket containing
its day.  The Polars `_order_week` is an ISO week number instead (see the
counterexample). -/
theorem c4_order_week_bucket (t : DT) (h1 : 1 ≤ t.day) :
    get_order_week none = none
      ∧ get_order_week (some t) = some (spec_order_week t) := by
  refine ⟨rfl, ?_⟩
  unfold get_order_week spec_order_week specWeekBucket
  by_cases h7 : t.day ≤ 7
  · have e : (t.day - 1) / 7 = 0 := by omega
    simp only [e, if_pos (⟨h1, h7⟩ : 1 ≤ t.day ∧ t.day ≤ 7),
      if_pos (by omega : t.day ≤ 28)]
  · by_cases h14 : t.day ≤ 14
    · have e : (t.day - 1) / 7 = 1 := by omega
      simp only [e, if_neg (by omega : ¬ (1 ≤ t.day ∧ t.day ≤ 7)),
        if_pos (⟨by omega, h14⟩ : 8 ≤ t.day ∧ t.day ≤ 14),
        if_pos (by omega : t.day ≤ 28)]
    · by_cases h21 : t.day ≤ 21
      · have e : (t.day - 1) / 7 = 2 := by omega
        simp only [e, if_neg (by omega : ¬ (1 ≤ t.day ∧ t.day ≤ 7)),
          if_neg (by omega : ¬ (8 ≤ t.day ∧ t.day ≤ 14)),
          if_pos (⟨by omega, h21⟩ : 15 ≤ t.day ∧ t.day ≤ 21),
          if_pos (by omega : t.day ≤ 28)]
      · by_cases h28 : t.day ≤ 28
        · have e : (t.day - 1) / 7 = 3 := by omega
          simp only [e, if_neg (by omega : ¬ (1 ≤ t.day ∧ t.day ≤ 7)),
            if_neg (by omega : ¬ (8 ≤ t.day ∧ t.day ≤ 14)),
            if_neg (by omega : ¬ (15 ≤ t.day ∧ t.day ≤ 21)),
            if_pos (⟨by omega, h28⟩ : 22 ≤ t.day ∧ t.day ≤ 28), if_pos h28]
        · simp only [if_neg (by omega : ¬ (1 ≤ t.day ∧ t.day ≤ 7)),
            if_neg (by omega : ¬ (8 ≤ t.day ∧ t.day ≤ 14)),
            if_neg (by omega : ¬ (15 ≤ t.day ∧ t.day ≤ 21)),
            if_neg (by omega : ¬ (22 ≤ t.day ∧ t.day ≤ 28)),
            if_neg h28, lastDay_inline_eq]

/-- Claim C4 witness: the 15th of January 2025 lands in the 15–21 bucket. -/
theorem c4_order_week_bucket_witness :
    get_order_week (some ⟨2025, 1, 15, 0, 0, 0⟩)
        = some (spec_order_week ⟨2025, 1, 15, 0, 0, 0⟩)
      ∧ spec_order_week ⟨2025, 1, 15, 0, 0, 0⟩ = "2025-01-15-21" := by
  exact ⟨(c4_order_week_bucket ⟨2025, 1, 15, 0, 0, 0⟩ (by decide)).2, by decide⟩

/-! #### Claim C5 -/

theorem mem_insertByShare (g a : GroupAgg) (l : List GroupAgg) :
    a ∈ insertByShare g l ↔ a = g ∨ a ∈ l := by
  induction l with
  | nil => simp [insertByShare]
  | cons h t ih =>
      unfold insertByShare
      split
      · rw [List.mem_cons, ih, List.mem_cons]
        tauto
      · rw [List.mem_cons, List.mem_cons]

theorem mem_sortByShare (a : GroupAgg) (l : List GroupAgg) :
    a ∈ sortByShare l ↔ a ∈ l := by
  induction l with
  | nil => simp [sortByShare]
  | cons h t ih =>
      unfold sortByShare at ih ⊢
      rw [List.foldr_cons, mem_insertByShare, ih, List.mem_cons]

/-- Claim C5 (confirmed): the aggregate policies hold for every live
aggregate (`summary-metrics`, `weekly-summary`, `top-10-states`,
`top-10-couriers`) — an empty row-set yields the zeroed summary record and
empty lists without error; the two summary rates are `count / total * 100`
with value 0 when the row count is 0; every top-10 `order_share` is
`group count / total count * 100` (the group-by branch only runs on
non-empty frames, so its denominator is never 0); and every weekly-summary
record consists solely of group counts and null-skipping sums — no division
occurs there at all.  Rationals make every operation total, so no
NaN/Infinity or division error can arise. -/
theorem c5_aggregate_policies :
    (∀ cols : List String, compute_summary_metrics_pl ⟨cols, []⟩
        = [("total_orders", 0), ("total_gmv", 0), ("delivery_rate", 0), ("rto_rate", 0)])
      ∧ (∀ cols : List String, compute_top_10_states_pl ⟨cols, []⟩ = [])
      ∧ (∀ cols : List String, compute_top_10_couriers_pl ⟨cols, []⟩ = [])
      ∧ (∀ cols : List String, compute_weekly_summary_pd ⟨cols, []⟩ = [])
      ∧ (∀ F : PlFrame,
          lookupAssoc (compute_summary_metrics_pl F) "delivery_rate"
              = some (if F.rows.length = 0 then 0
                  else ((F.rows.filter (fun r => isTrueCell (rowGet r "_is_delivered"))).length : ℚ)
                    / (F.rows.length : ℚ) * 100)
            ∧ lookupAssoc (compute_summary_metrics_pl F) "rto_rate"
              = some (if F.rows.length = 0 then 0
                  else ((F.rows.filter (fun r => isTrueCell (rowGet r "_is_rto"))).length : ℚ)
                    / (F.rows.length : ℚ) * 100))
      ∧ (∀ (F : PlFrame) (g : GroupAgg), g ∈ compute_top_10_states_pl F →
          g.order_share = (g.total_orders : ℚ) / (F.rows.length : ℚ) * 100)
      ∧ (∀ (F : PlFrame) (g : WeeklyAgg), g ∈ compute_weekly_summary_pd F →
          g.total_orders
              = (F.rows.filter (fun r => rowGet r "_order_week" = g.order_week)).length
            ∧ g.delivered_sum
              = ((F.rows.filter (fun r => rowGet r "_order_week" = g.order_week)).filter
                  (fun r => isTrueCell (rowGet r "_is_delivered"))).length
            ∧ g.ndr_sum
              = ((F.rows.filter (fun r => rowGet r "_order_week" = g.order_week)).filter
                  (fun r => isTrueCell (rowGet r "_is_ndr"))).length
            ∧ g.rto_sum
              = ((F.rows.filter (fun r => rowGet r "_order_week" = g.order_week)).filter
                  (fun r => isTrueCell (rowGet r "_is_rto"))).length
            ∧ g.order_value_sum
              = ((F.rows.filter (fun r => rowGet r "_order_week" = g.order_week)).map
                  (fun r => numOrZero (rowGet r "_order_value"))).sum) := by
  refine ⟨fun cols => rfl, fun cols => rfl, fun cols => rfl, fun cols => rfl, ?_, ?_, ?_⟩
  · intro F
    by_cases h : F.rows.length = 0
    · constructor
      · simp only [compute_summary_metrics_pl, if_pos h]
        rfl
      · simp only [compute_summary_metrics_pl, if_pos h]
        rfl
    · constructor
      · simp only [compute_summary_metrics_pl, if_neg h]
        rfl
      · simp only [compute_summary_metrics_pl, if_neg h]
        rfl
  · intro F g hg
    by_cases h : F.rows.length = 0
    · rw [compute_top_10_states_pl, if_pos h] at hg
      exact absurd hg (List.not_mem_nil g)
    · rw [compute_top_10_states_pl, if_neg h] at hg
      have hg2 : g ∈ sortByShare (groupAggsOn F "_state") := List.take_subset 10 _ hg
      have hg3 : g ∈ groupAggsOn F "_state" := (mem_sortByShare g _).mp hg2
      obtain ⟨v, _, hgv⟩ := List.mem_map.mp hg3
      rw [← hgv]
  · intro F g hg
    rw [compute_weekly_summary_pd] at hg
    obtain ⟨v, _, hgv⟩ := List.mem_map.mp hg
    rw [← hgv]
    exact ⟨rfl, rfl, rfl, rfl, rfl⟩

/-- Claim C5 witness: on a one-row frame, the single state group has share
`1 / 1 * 100`, and the single weekly group (the null week, since the frame
has no `_order_week` column) carries the group's counts. -/
theorem c5_aggregate_policies_witness :
    (∃ g : GroupAgg, g ∈ compute_top_10_states_pl c5Frame
        ∧ g.order_share = (g.total_orders : ℚ) / (c5Frame.rows.length : ℚ) * 100)
      ∧ (∃ g : WeeklyAgg, g ∈ compute_weekly_summary_pd c5Frame
          ∧ g.total_orders
            = (c5Frame.rows.filter
                (fun r => rowGet r "_order_week" = g.order_week)).length) := by
  constructor
  · have hm : (⟨Val.str "MH", 1, 1, ((1 : Nat) : ℚ) / ((1 : Nat) : ℚ) * 100⟩ : GroupAgg)
        ∈ compute_top_10_states_pl c5Frame := List.mem_singleton.mpr rfl
    exact ⟨_, hm, c5_aggregate_policies.2.2.2.2.2.1 c5Frame _ hm⟩
  · have hne : compute_weekly_summary_pd c5Frame ≠ [] := by
      show _ :: _ ≠ []
      exact List.cons_ne_nil _ _
    have hm2 : (compute_weekly_summary_pd c5Frame).head hne
        ∈ compute_weekly_summary_pd c5Frame := List.head_mem hne
    exact ⟨_, hm2, (c5_aggregate_policies.2.2.2.2.2.2 c5Frame _ hm2).1⟩

/-! #### Claim C10 -/

/-- Claim C10 (confirmed): in the Polars normalization, every row's
`_order_value` is a non-null number — the resolved column's cell coerced
through the non-strict Float64 cast with null (and failed parses) filled by
0.0, and the constant 0.0 when no order-value column resolves — and the
summary GMV is the sum of exactly these per-row values over the delivered
rows, so rows with absent order values contribute 0 instead of being
dropped. -/
theorem c10_order_value_total :
    (∀ (F : PlFrame) (r : Row),
        rowGet (normalize_row_pl (plParamsOf F.cols) r) "_order_value"
          = Val.num (match resolve_column F.cols COLUMN_MAP_order_value with
              | none => 0
              | some c => (castFloat (rowGet r c)).getD 0))
      ∧ (∀ (F : PlFrame) (r2 : Row), r2 ∈ (normalize_dataframe_pl F).rows →
          ∃ q : ℚ, rowGet r2 "_order_value" = Val.num q)
      ∧ (∀ F : PlFrame, F.rows ≠ [] →
          lookupAssoc (compute_summary_metrics_pl (normalize_dataframe_pl F)) "total_gmv"
            = some (((normalize_dataframe_pl F).rows.filter
                (fun r => isTrueCell (rowGet r "_is_delivered"))).map
                (fun r => numOrZero (rowGet r "_order_value"))).sum) := by
  have key : ∀ (F : PlFrame) (r : Row),
      rowGet (normalize_row_pl (plParamsOf F.cols) r) "_order_value"
        = Val.num (match resolve_column F.cols COLUMN_MAP_order_value with
            | none => 0
            | some c => (castFloat (rowGet r c)).getD 0) := by
    intro F r
    have hm : ("_order_value",
        colCell (.num 0) orderValueCellFn (plParamsOf F.cols).ovc r)
          ∈ plDerived1 (plParamsOf F.cols) r := by
      unfold plDerived1
      exact List.mem_cons_of_mem _ (List.mem_cons_of_mem _ (List.mem_cons_self _ _))
    rw [rowGet_nrow_d1 _ _ _ _ hm]
    show colCell (.num 0) orderValueCellFn (resolve_column F.cols COLUMN_MAP_order_value) r = _
    cases hov : resolve_column F.cols COLUMN_MAP_order_value with
    | none => rfl
    | some c =>
        simp only [colCell]
        unfold orderValueCellFn
        cases castFloat (rowGet r c) <;> rfl
  refine ⟨key, ?_, ?_⟩
  · intro F r2 h
    rw [normalize_dataframe_pl_rows] at h
    obtain ⟨r, _, hr⟩ := List.mem_map.mp h
    exact ⟨_, hr ▸ key F r⟩
  · intro F hne
    have hlen : ¬ (normalize_dataframe_pl F).rows.length = 0 := by
      rw [normalize_dataframe_pl_rows, List.length_map]
      exact fun hc => hne (List.length_eq_zero.mp hc)
    simp only [compute_summary_metrics_pl, if_neg hlen]
    rfl

/-- Claim C10 witness: on the concrete two-row frame, the head row's
`_order_value` is a number, and the GMV lookup is the delivered-row sum. -/
theorem c10_order_value_total_witness :
    (∃ q : ℚ, rowGet ((normalize_dataframe_pl c2Frame).rows.headI) "_order_value"
        = Val.num q)
      ∧ lookupAssoc (compute_summary_metrics_pl (normalize_dataframe_pl c2Frame)) "total_gmv"
        = some (((normalize_dataframe_pl c2Frame).rows.filter
            (fun r => isTrueCell (rowGet r "_is_delivered"))).map
            (fun r => numOrZero (rowGet r "_order_value"))).sum := by
  constructor
  · exact c10_order_value_total.2.1 c2Frame _
      (List.mem_of_mem_head? (by rfl))
  · exact c10_order_value_total.2.2 c2Frame (by decide)

end Dashboard
